import Mathlib

/-!
# atoship Go SDK: the request dispatcher

A shallow embedding of `atoship/client.go` (`NewClient` and its options,
`Client.makeRequest` and the verb helpers) together with the facades of the
eight services (`tracking.go`, `orders.go`, `addresses.go`, `shipping.go`,
`users.go`, `admin.go`, `carriers.go`, `webhooks.go`).

The two external collaborators of `makeRequest` are taken as parameters:

* the HTTP transport (`resty`): a function from the issued request to either a
  transport failure (its description) or a completed response, of which the
  code observes `StatusCode()`, `Body()` and `Result()`;
* `encoding/json`: `json.Unmarshal(data, v)` writes into the value `v` points to
  and returns an error or nil, so it is a function from the input and the
  current destination to the new destination and an optional error.

`makeRequest` is a program (`Dispatch`) whose only access to the transport is
an `exchange` step; running it (`Dispatch.run`) applies the transport at each
such step and records the request, so the record counts the applications of
the transport.

A Go `error` is `Option GoError` (`none` is `nil`); a possibly-nil pointer or
interface is an `Option`; a slice is a `Slice` (`none` is the nil slice); a byte
slice is the `String` of its text.
-/

namespace Atoship

/-! ## Data model (client.go) -/

/-- A decoded JSON value, the content of a Go `any` after `json.Unmarshal`.
Numbers keep their literal text. -/
inductive Json where
  | null
  | bool (b : Bool)
  | num (lit : String)
  | str (s : String)
  | arr (xs : List Json)
  | obj (kvs : List (String × Json))

/-- The bytes of `json.RawMessage`. -/
abbrev RawMessage := String

/-- Go `APIResponse`, the standard response envelope (client.go:110). `Data` is
`none` for a nil `json.RawMessage` (the field was absent). -/
structure APIResponse where
  Success : Bool := false
  Data : Option RawMessage := none
  Error : String := ""
  RequestID : String := ""
  Timestamp : String := ""

/-- Go `APIError` (client.go:128). `Details` is `none` for a nil interface. -/
structure APIError where
  Code : String := ""
  Message : String := ""
  StatusCode : Int := 0
  RequestID : String := ""
  Details : Option Json := none

def ErrCodeValidation : String := "VALIDATION_ERROR"
def ErrCodeAuthentication : String := "AUTHENTICATION_ERROR"
def ErrCodeAuthorization : String := "AUTHORIZATION_ERROR"
def ErrCodeNotFound : String := "NOT_FOUND"
def ErrCodeRateLimit : String := "RATE_LIMIT_EXCEEDED"
def ErrCodeServerError : String := "SERVER_ERROR"
def ErrCodeNetworkError : String := "NETWORK_ERROR"
def ErrCodeTimeoutError : String := "TIMEOUT_ERROR"
def ErrCodeConfigError : String := "CONFIGURATION_ERROR"

/-- The nine `ErrCode...` constants of client.go:142-152. -/
def errCodes : List String :=
  [ErrCodeValidation, ErrCodeAuthentication, ErrCodeAuthorization, ErrCodeNotFound,
   ErrCodeRateLimit, ErrCodeServerError, ErrCodeNetworkError, ErrCodeTimeoutError,
   ErrCodeConfigError]

/-- The dynamic type of a non-nil Go `error` that `makeRequest` can return:
an `*APIError`, the value built by `fmt.Errorf`, or the error returned by
`json.Unmarshal` (each of the latter two carried by its message). -/
inductive GoError where
  | apiError (e : APIError)
  | errorf (msg : String)
  | jsonError (msg : String)

/-- Whether an error value is an `*APIError` (the type assertion
`err.(*APIError)` succeeds). -/
def GoError.isAPIError : GoError → Bool
  | .apiError _ => true
  | _ => false

/-! ## A model of `encoding/json`

`makeRequest` is stated for every behaviour of `json.Unmarshal` (the `Env`
below takes it as a parameter). The concrete instances further down use this
model: a JSON reader over the characters of the input, and the decoding of a
JSON value into an `APIError` and into a Go `string`. A syntax error leaves the
destination untouched; the error texts stand for the library errors and are
not meant to reproduce their wording. Field names are matched exactly first
and then under case folding. -/

namespace JSON

/-- The double quote that delimits a JSON string. -/
def quote : Char := Char.ofNat 34

/-- The backslash that starts an escape inside a JSON string. -/
def backslash : Char := Char.ofNat 92

/-- JSON whitespace: space, tab, line feed, carriage return. -/
def isSpace (c : Char) : Bool := c == ' ' || c == '\t' || c == '\n' || c == '\r'

def skipSpace : List Char → List Char
  | [] => []
  | c :: cs => if isSpace c then skipSpace cs else c :: cs

def isDigit (c : Char) : Bool := decide (48 ≤ c.toNat) && decide (c.toNat ≤ 57)

def hexVal (c : Char) : Option Nat :=
  if isDigit c then some (c.toNat - 48)
  else if decide (97 ≤ c.toNat) && decide (c.toNat ≤ 102) then some (c.toNat - 87)
  else if decide (65 ≤ c.toNat) && decide (c.toNat ≤ 70) then some (c.toNat - 55)
  else none

def hex4 (a b c d : Char) : Option Nat :=
  match hexVal a, hexVal b, hexVal c, hexVal d with
  | some w, some x, some y, some z => some (((w * 16 + x) * 16 + y) * 16 + z)
  | _, _, _, _ => none

def unescape (c : Char) : Option Char :=
  if c == quote then some quote
  else if c == backslash then some backslash
  else if c == '/' then some '/'
  else if c == 'b' then some (Char.ofNat 8)
  else if c == 'f' then some (Char.ofNat 12)
  else if c == 'n' then some '\n'
  else if c == 'r' then some '\r'
  else if c == 't' then some '\t'
  else none

def scanString : Nat → List Char → List Char → Option (String × List Char)
  | 0, _, _ => none
  | _ + 1, _, [] => none
  | fuel + 1, acc, c :: cs =>
    if c == quote then some (String.mk acc.reverse, cs)
    else if c == backslash then
      match cs with
      | [] => none
      | e :: rest =>
        if e == 'u' then
          match rest with
          | h1 :: h2 :: h3 :: h4 :: rest4 =>
            match hex4 h1 h2 h3 h4 with
            | none => none
            | some n =>
              if n < 0xD800 ∨ 0xE000 ≤ n then scanString fuel (Char.ofNat n :: acc) rest4
              else
                match rest4 with
                | b :: u :: l1 :: l2 :: l3 :: l4 :: rest10 =>
                  match hex4 l1 l2 l3 l4 with
                  | some m =>
                    if b == backslash ∧ u == 'u' ∧ n < 0xDC00 ∧ 0xDC00 ≤ m ∧ m < 0xE000 then
                      scanString fuel
                        (Char.ofNat (0x10000 + (n - 0xD800) * 0x400 + (m - 0xDC00)) :: acc) rest10
                    else scanString fuel (Char.ofNat 0xFFFD :: acc) rest4
                  | none => scanString fuel (Char.ofNat 0xFFFD :: acc) rest4
                | _ => scanString fuel (Char.ofNat 0xFFFD :: acc) rest4
          | _ => none
        else
          match unescape e with
          | some ch => scanString fuel (ch :: acc) rest
          | none => none
    else if c.toNat < 32 then none
    else scanString fuel (c :: acc) cs

def spanDigits : List Char → List Char × List Char
  | [] => ([], [])
  | c :: cs => if isDigit c then ((spanDigits cs).1.cons c, (spanDigits cs).2) else ([], c :: cs)

def scanInt (cs : List Char) : Option (List Char × List Char) :=
  match spanDigits cs with
  | ([], _) => none
  | (d :: ds, rest) => if d == '0' ∧ ds ≠ [] then some ([d], ds ++ rest) else some (d :: ds, rest)

def scanFrac (cs : List Char) : Option (List Char × List Char) :=
  match cs with
  | '.' :: r =>
    match spanDigits r with
    | ([], _) => none
    | (ds, rest) => some ('.' :: ds, rest)
  | _ => some ([], cs)

def scanSign (cs : List Char) : List Char × List Char :=
  match cs with
  | c :: r => if c == '+' ∨ c == '-' then ([c], r) else ([], cs)
  | [] => ([], [])

def scanExp (cs : List Char) : Option (List Char × List Char) :=
  match cs with
  | c :: r =>
    if c == 'e' ∨ c == 'E' then
      match spanDigits (scanSign r).2 with
      | ([], _) => none
      | (ds, rest) => some (c :: (scanSign r).1 ++ ds, rest)
    else some ([], cs)
  | [] => some ([], [])

def scanNumber (cs : List Char) : Option (String × List Char) :=
  let (sign, r0) := match cs with
    | c :: r => if c == '-' then ([c], r) else ([], cs)
    | [] => ([], [])
  match scanInt r0 with
  | none => none
  | some (i, r1) =>
    match scanFrac r1 with
    | none => none
    | some (f, r2) =>
      match scanExp r2 with
      | none => none
      | some (e, r3) => some (String.mk (sign ++ i ++ f ++ e), r3)

def scanLiteral (lit : List Char) (v : Json) (cs : List Char) : Option (Json × List Char) :=
  if cs.take lit.length = lit then some (v, cs.drop lit.length) else none

/-- The nesting depth of arrays and objects beyond which `encoding/json` reports
a syntax error ("exceeded max depth"). -/
def maxNestingDepth : Nat := 10000

mutual
def parseValue : Nat → Nat → List Char → Option (Json × List Char)
  | 0, _, _ => none
  | fuel + 1, depth, cs =>
    match skipSpace cs with
    | [] => none
    | c :: rest =>
      if c == '{' then
        if maxNestingDepth ≤ depth then none
        else
          match skipSpace rest with
          | d :: r =>
            if d == '}' then some (.obj [], r) else parseMembers fuel (depth + 1) (d :: r) []
          | [] => none
      else if c == '[' then
        if maxNestingDepth ≤ depth then none
        else
          match skipSpace rest with
          | d :: r =>
            if d == ']' then some (.arr [], r) else parseElems fuel (depth + 1) (d :: r) []
          | [] => none
      else if c == quote then
        match scanString (rest.length + 1) [] rest with
        | some (s, r) => some (.str s, r)
        | none => none
      else if c == 't' then scanLiteral "true".data (.bool true) (c :: rest)
      else if c == 'f' then scanLiteral "false".data (.bool false) (c :: rest)
      else if c == 'n' then scanLiteral "null".data .null (c :: rest)
      else
        match scanNumber (c :: rest) with
        | some (n, r) => some (.num n, r)
        | none => none
def parseElems : Nat → Nat → List Char → List Json → Option (Json × List Char)
  | 0, _, _, _ => none
  | fuel + 1, depth, cs, acc =>
    match parseValue fuel depth cs with
    | none => none
    | some (v, r) =>
      match skipSpace r with
      | d :: r1 =>
        if d == ',' then parseElems fuel depth r1 (v :: acc)
        else if d == ']' then some (.arr (v :: acc).reverse, r1)
        else none
      | [] => none
def parseMembers : Nat → Nat → List Char → List (String × Json) → Option (Json × List Char)
  | 0, _, _, _ => none
  | fuel + 1, depth, cs, acc =>
    match skipSpace cs with
    | q :: r0 =>
      if q == quote then
        match scanString (r0.length + 1) [] r0 with
        | none => none
        | some (k, r1) =>
          match skipSpace r1 with
          | colon :: r2 =>
            if colon == ':' then
              match parseValue fuel depth r2 with
              | none => none
              | some (v, r3) =>
                match skipSpace r3 with
                | d :: r4 =>
                  if d == ',' then parseMembers fuel depth r4 ((k, v) :: acc)
                  else if d == '}' then some (.obj ((k, v) :: acc).reverse, r4)
                  else none
                | [] => none
            else none
          | [] => none
      else none
    | [] => none
end

/-- The JSON value a text denotes, `none` for a text that is not valid JSON
(also one nested deeper than `maxNestingDepth`). The fuel, one more than the
length of the text, is never exhausted. -/
def parse (s : String) : Option Json :=
  match parseValue (s.length + 1) 0 s.data with
  | some (v, r) => if (skipSpace r).isEmpty then some v else none
  | none => none

/-- The name `encoding/json` gives the kind of a JSON value in a type error. -/
def kindName : Json → String
  | .null => "null"
  | .bool _ => "bool"
  | .num _ => "number"
  | .str _ => "string"
  | .arr _ => "array"
  | .obj _ => "object"

/-- The text of a `*json.SyntaxError`. -/
def syntaxError : String := "json: invalid JSON input"

/-- The text of a `*json.UnmarshalTypeError`. -/
def typeError (v : Json) (target : String) : String :=
  "json: cannot unmarshal " ++ kindName v ++ " into Go value of type " ++ target

/-- Decimal value of a run of digits. -/
def digitsVal (ds : List Char) : Nat := ds.foldl (fun n d => n * 10 + (d.toNat - 48)) 0

/-- Go `strconv.ParseInt(lit, 10, 64)` on a JSON number literal: an optional
minus sign and digits only, within the range of `int64`. -/
def parseInt64 (lit : String) : Option Int :=
  match lit.data with
  | [] => none
  | c :: cs =>
    if c == '-' then
      if cs ≠ [] ∧ cs.all isDigit ∧ digitsVal cs ≤ 2 ^ 63 then some (-(digitsVal cs : Int))
      else none
    else if (c :: cs).all isDigit ∧ digitsVal (c :: cs) < 2 ^ 63 then
      some (digitsVal (c :: cs) : Int)
    else none

/-- The exponent part of a JSON number literal, given the text after the
mantissa: 0 when there is none. -/
def exponentOf (cs : List Char) : Int :=
  match cs with
  | [] => 0
  | _ :: r =>
    if (scanSign r).1 == ['-'] then -(digitsVal (spanDigits (scanSign r).2).1 : Int)
    else (digitsVal (spanDigits (scanSign r).2).1 : Int)

/-- Whether `strconv.ParseFloat(lit, 64)` succeeds on a JSON number literal. It
fails exactly when the value rounds to an infinity, that is when its magnitude
is at least 2^1024 - 2^970. With mantissa digits `m` (integer and fraction part
together) and the decimal point moved by `scale`, the value is `m * 10^scale`;
it has `p` digits before the decimal point, and only `p = 309` needs the exact
comparison. -/
def float64InRange (lit : String) : Bool :=
  let cs := match lit.data with
    | c :: r => if c == '-' then r else c :: r
    | [] => []
  let int := (spanDigits cs).1
  let afterInt := (spanDigits cs).2
  let frac := match afterInt with
    | c :: r => if c == '.' then (spanDigits r).1 else []
    | [] => []
  let afterFrac := match afterInt with
    | c :: r => if c == '.' then (spanDigits r).2 else afterInt
    | [] => []
  let m := digitsVal (int ++ frac)
  let scale : Int := exponentOf afterFrac - frac.length
  let p : Int := (((int ++ frac).dropWhile (fun d => d == '0')).length : Int) + scale
  if m = 0 then true
  else if p < 309 then true
  else if 309 < p then false
  else if 0 ≤ scale then decide (m * 10 ^ scale.toNat < 2 ^ 1024 - 2 ^ 970)
  else decide (m < (2 ^ 1024 - 2 ^ 970) * 10 ^ (-scale).toNat)

mutual
/-- Whether every number in a JSON value fits a `float64`, as decoding into an
`any` requires. -/
def inRange : Json → Bool
  | .num lit => float64InRange lit
  | .arr xs => allInRange xs
  | .obj kvs => membersInRange kvs
  | _ => true
def allInRange : List Json → Bool
  | [] => true
  | x :: xs => inRange x && allInRange xs
def membersInRange : List (String × Json) → Bool
  | [] => true
  | (_, v) :: kvs => inRange v && membersInRange kvs
end

mutual
/-- The value decoding into an `any` builds when a number inside an array or an
object does not fit a `float64`: that number is left nil. -/
def scrub : Json → Json
  | .num lit => if float64InRange lit then .num lit else .null
  | .arr xs => .arr (scrubAll xs)
  | .obj kvs => .obj (scrubMembers kvs)
  | v => v
def scrubAll : List Json → List Json
  | [] => []
  | x :: xs => scrub x :: scrubAll xs
def scrubMembers : List (String × Json) → List (String × Json)
  | [] => []
  | (k, v) :: kvs => (k, scrub v) :: scrubMembers kvs
end

/-- The case folding of one character of a key, as far as it can meet an ASCII
letter: an ASCII letter folds to lower case, and so do the two other characters
Unicode simple folding puts with an ASCII letter, the long s (U+017F) with s
and the Kelvin sign (U+212A) with k. -/
def foldChar (c : Char) : Char :=
  if c.toNat = 0x17F then 's' else if c.toNat = 0x212A then 'k' else c.toLower

/-- The case folding under which `encoding/json` compares an object key with a
field name; exact for the field names here, which are ASCII. -/
def fold (s : String) : String := String.mk (s.data.map foldChar)

/-- The JSON names of the fields of `APIError` (its struct tags). -/
inductive APIErrorField where
  | code
  | message
  | statusCode
  | requestId
  | details

/-- The tag of each field, in declaration order. -/
def apiErrorFields : List (String × APIErrorField) :=
  [("code", .code), ("message", .message), ("statusCode", .statusCode),
   ("requestId", .requestId), ("details", .details)]

/-- The field an object key decodes into: an exact match of the tag, else the
first tag equal to it under case folding, else none (the key is ignored). -/
def findField (key : String) : Option APIErrorField :=
  match apiErrorFields.find? (fun f => f.1 == key) with
  | some f => some f.2
  | none => (apiErrorFields.find? (fun f => fold f.1 == fold key)).map (fun f => f.2)

/-- Store one JSON value into a field of an `APIError`: `null` leaves a string
or int untouched and sets the `any` to nil; a value of the wrong kind is a type
error that leaves the field untouched. The `any` takes every value whose
numbers fit a `float64`; a number that does not is a type error, which leaves
the field untouched when the value is that number and leaves the number nil
inside an array or object. -/
def storeField (e : APIError) : APIErrorField → Json → APIError × Option String
  | .details, .null => ({ e with Details := none }, none)
  | .details, .num lit =>
    if float64InRange lit then ({ e with Details := some (.num lit) }, none)
    else (e, some (typeError (.num lit) "float64"))
  | .details, v =>
    if inRange v then ({ e with Details := some v }, none)
    else ({ e with Details := some (scrub v) }, some (typeError (.num "") "float64"))
  | _, .null => (e, none)
  | .code, .str s => ({ e with Code := s }, none)
  | .message, .str s => ({ e with Message := s }, none)
  | .requestId, .str s => ({ e with RequestID := s }, none)
  | .statusCode, .num lit =>
    match parseInt64 lit with
    | some n => ({ e with StatusCode := n }, none)
    | none => (e, some (typeError (.num lit) "int"))
  | .statusCode, v => (e, some (typeError v "int"))
  | _, v => (e, some (typeError v "string"))

/-- Decode the members of a JSON object into an `APIError`, in order; decoding
goes on after a type error and the first error is the one reported. -/
def storeMembers : List (String × Json) → APIError → Option String → APIError × Option String
  | [], e, err => (e, err)
  | (k, v) :: rest, e, err =>
    match findField k with
    | none => storeMembers rest e err
    | some f =>
      match err with
      | some msg => storeMembers rest (storeField e f v).1 (some msg)
      | none => storeMembers rest (storeField e f v).1 (storeField e f v).2

/-- Go `json.Unmarshal(data, &apiErr)` for an `apiErr` of type `APIError`. -/
def unmarshalAPIError (data : String) (e : APIError) : APIError × Option String :=
  match parse data with
  | none => (e, some syntaxError)
  | some .null => (e, none)
  | some (.obj kvs) => storeMembers kvs e none
  | some v => (e, some (typeError v "atoship.APIError"))

/-- Go `json.Unmarshal(data, &s)` for an `s` of type `string`. -/
def unmarshalString (data : String) (s : String) : String × Option String :=
  match parse data with
  | none => (s, some syntaxError)
  | some .null => (s, none)
  | some (.str v) => (v, none)
  | some v => (s, some (typeError v "string"))

end JSON

/-! ## The transport (resty) as seen by the dispatcher -/

/-- The token characters of a header name (net/http `validHeaderFieldByte`):
ASCII letters, digits and the fifteen marks RFC 7230 allows in a token, listed
by character code. -/
def validHeaderFieldByte (c : Char) : Bool :=
  c.isAlphanum ||
    [33, 35, 36, 37, 38, 39, 42, 43, 45, 46, 94, 95, 96, 124, 126].contains c.toNat

/-- The loop of `CanonicalMIMEHeaderKey`: the first letter and every letter after
a hyphen in upper case, the others in lower case. -/
def canonicalizeFrom : Bool → List Char → List Char
  | _, [] => []
  | upper, c :: cs =>
    (if upper then c.toUpper else c.toLower) ::
      canonicalizeFrom ((if upper then c.toUpper else c.toLower) == '-') cs

/-- Go `textproto.CanonicalMIMEHeaderKey`: a name with a character that is not a
token character is returned unchanged. -/
def CanonicalMIMEHeaderKey (s : String) : String :=
  if s.data.all validHeaderFieldByte then String.mk (canonicalizeFrom true s.data) else s

/-- Go `http.Header`, for headers that are only ever set (one value each). -/
abbrev HTTPHeader := List (String × String)

/-- Go `Header.Set`: the value replaces any value stored under the canonical
form of the name. -/
def HTTPHeader.Set (h : HTTPHeader) (key value : String) : HTTPHeader :=
  (CanonicalMIMEHeaderKey key, value) ::
    h.filter (fun p => p.1 != CanonicalMIMEHeaderKey key)

/-- The value stored for a header name, looked up under its canonical form as
Go `Header.Get` does; `none` when the header is absent. -/
def HTTPHeader.Get (h : HTTPHeader) (key : String) : Option String :=
  (h.find? (fun p => p.1 == CanonicalMIMEHeaderKey key)).map (fun p => p.2)

/-- The settings of the `resty.Client` held in `Client.httpClient`. -/
structure RestyClient where
  BaseURL : String := ""
  Timeout : Int := 0
  RetryCount : Int := 0
  Debug : Bool := false
  Header : HTTPHeader := []

/-- Go `Client` (client.go:22); the service back-pointers carry no data. -/
structure Client where
  apiKey : String
  baseURL : String
  httpClient : RestyClient
  debug : Bool := false

def DefaultBaseURL : String := "https://api.atoship.com"

/-- Go `DefaultTimeout`, 30 seconds as a `time.Duration` (nanoseconds). -/
def DefaultTimeout : Int := 30 * 1000000000

def Version : String := "1.0.0"

/-- Go `strings.TrimRight(s, "/")`. -/
def trimRightSlash (s : String) : String :=
  String.mk (s.data.reverse.dropWhile (fun ch => ch == '/')).reverse

/-- resty `SetBaseURL`: stores the URL without its trailing slashes. -/
def RestyClient.SetBaseURL (r : RestyClient) (url : String) : RestyClient :=
  { r with BaseURL := trimRightSlash url }

def RestyClient.SetTimeout (r : RestyClient) (timeout : Int) : RestyClient :=
  { r with Timeout := timeout }

def RestyClient.SetRetryCount (r : RestyClient) (count : Int) : RestyClient :=
  { r with RetryCount := count }

def RestyClient.SetDebug (r : RestyClient) (d : Bool) : RestyClient :=
  { r with Debug := d }

/-- resty `SetHeader`: `c.Header.Set(header, value)`. -/
def RestyClient.SetHeader (r : RestyClient) (header value : String) : RestyClient :=
  { r with Header := HTTPHeader.Set r.Header header value }

/-- Go `ClientOption` (client.go:40): a function that configures the client. -/
abbrev ClientOption := Client → Client

/-- Go `WithBaseURL` (client.go:80). -/
def WithBaseURL (url : String) : ClientOption :=
  fun c => { c with baseURL := url, httpClient := c.httpClient.SetBaseURL url }

/-- Go `WithTimeout` (client.go:88). -/
def WithTimeout (timeout : Int) : ClientOption :=
  fun c => { c with httpClient := c.httpClient.SetTimeout timeout }

/-- Go `WithRetryCount` (client.go:95). -/
def WithRetryCount (count : Int) : ClientOption :=
  fun c => { c with httpClient := c.httpClient.SetRetryCount count }

/-- Go `WithDebug` (client.go:102). -/
def WithDebug (debug : Bool) : ClientOption :=
  fun c => { c with debug := debug, httpClient := c.httpClient.SetDebug debug }

/-- Go `NewClient` (client.go:43). -/
def NewClient (apiKey : String) (opts : List ClientOption) : Client :=
  let client : Client :=
    { apiKey := apiKey, baseURL := DefaultBaseURL,
      httpClient := (RestyClient.SetTimeout {} DefaultTimeout).SetHeader "User-Agent"
        ("atoship-go-sdk/" ++ Version) }
  let client := opts.foldl (fun c opt => opt c) client
  let client := { client with
    httpClient := (client.httpClient.SetHeader "X-API-Key" apiKey).SetHeader "Content-Type"
      "application/json" }
  if client.debug then { client with httpClient := client.httpClient.SetDebug true } else client

/-- One HTTP exchange as issued by `makeRequest`: the request made by
`c.httpClient.R()` (it inherits the settings of the client), the verb of the
request method called on it, the path, and the body given to `SetBody`
(`none` when `SetBody` was not called). -/
structure Request (β : Type) where
  client : RestyClient
  Method : String
  URL : String
  Body : Option β

/-- What `makeRequest` observes of a completed `*resty.Response`:
`StatusCode()`, `Body()` and `Result()` (the `*APIResponse` registered with
`SetResult`, as filled in or left untouched by resty). -/
structure Response where
  StatusCode : Int
  Body : String
  Result : APIResponse

/-- resty: `IsError` reports a status code above 399. -/
def Response.IsError (r : Response) : Bool := decide (399 < r.StatusCode)

/-- The external collaborators of `makeRequest`, for request bodies of type `β`
and a destination of type `τ`. -/
structure Env (β τ : Type) where
  /-- The HTTP exchange: `Except.error msg` is a non-nil `err` whose `Error()` is `msg`. -/
  transport : Request β → Except String Response
  /-- Go `json.Unmarshal(body, &apiErr)`. -/
  unmarshalAPIError : String → APIError → APIError × Option String
  /-- Go `json.Unmarshal(data, result)` for a `result` pointing to a `τ`. -/
  unmarshal : RawMessage → τ → τ × Option String

/-- The outcome of one `makeRequest` call: the returned `error`, the content of
the destination afterwards (`none` when `result` was nil) and the requests the
transport received during the call, in order. -/
structure Outcome (β τ : Type) where
  err : Option GoError
  result : Option τ
  exchanges : List (Request β)

/-! ## Client.makeRequest (client.go:155-219) -/

/-- The `switch method` of `makeRequest`: the verbs that reach the transport. -/
def supportedMethod (method : String) : Bool :=
  method == "GET" || method == "POST" || method == "PUT" || method == "DELETE" ||
    method == "PATCH"

/-- A call of the dispatcher as a program over the transport: it returns a
value, or issues one HTTP exchange and goes on with what the transport answered.
A program has no other access to the transport. -/
inductive Dispatch (β α : Type) where
  | done (a : α)
  | exchange (req : Request β) (next : Except String Response → Dispatch β α)

/-- Running a program against a transport: every `exchange` applies the
transport to its request, once, and records that request; the result is the
value returned and the requests in the order the transport received them. -/
def Dispatch.run {β α : Type} (transport : Request β → Except String Response) :
    Dispatch β α → α × List (Request β)
  | .done a => (a, [])
  | .exchange req next =>
    (((next (transport req)).run transport).1, req :: ((next (transport req)).run transport).2)

/-- The body of `Client.makeRequest` (client.go:155-219) as a program over the
transport: the request methods `req.Get(path)` ... `req.Patch(path)` are the
`exchange`, everything else is pure. It yields the returned `error` and the
content of the destination afterwards. `body` is `none` for a nil `body`;
`result` is `none` for a nil `result` and otherwise the current content of the
destination. -/
def Client.dispatch {β τ : Type}
    (unmarshalAPIError : String → APIError → APIError × Option String)
    (unmarshal : RawMessage → τ → τ × Option String)
    (c : Client) (method path : String) (body : Option β) (result : Option τ) :
    Dispatch β (Option GoError × Option τ) :=
  let req : Request β := { client := c.httpClient, Method := method, URL := path, Body := body }
  if supportedMethod method then
    .exchange req fun answer =>
      match answer with
      | .error err =>
        .done (some (.apiError { Code := ErrCodeNetworkError, Message := err }), result)
      | .ok resp =>
        if resp.IsError then
          match unmarshalAPIError resp.Body {} with
          | (_, some _) =>
            .done (some (.apiError { Code := ErrCodeServerError, Message := resp.Body,
                                     StatusCode := resp.StatusCode }), result)
          | (apiErr, none) =>
            .done (some (.apiError { apiErr with StatusCode := resp.StatusCode }), result)
        else
          let apiResp := resp.Result
          if !apiResp.Success then
            .done (some (.apiError { Code := "API_ERROR", Message := apiResp.Error,
                                     RequestID := apiResp.RequestID }), result)
          else
            match result, apiResp.Data with
            | some dst, some data =>
              .done (((unmarshal data dst).2).map GoError.jsonError,
                     some (unmarshal data dst).1)
            | _, _ => .done (none, result)
  else
    .done (some (.errorf ("unsupported HTTP method: " ++ method)), result)

/-- Go `Client.makeRequest`: the program `Client.dispatch` run against the
transport of the environment, with its decoders. The field `exchanges` of the
outcome is the record `Dispatch.run` keeps of the applications of the
transport. -/
def Client.makeRequest {β τ : Type} (env : Env β τ) (c : Client) (method path : String)
    (body : Option β) (result : Option τ) : Outcome β τ :=
  { err := ((c.dispatch env.unmarshalAPIError env.unmarshal method path body result).run
      env.transport).1.1,
    result := ((c.dispatch env.unmarshalAPIError env.unmarshal method path body result).run
      env.transport).1.2,
    exchanges := ((c.dispatch env.unmarshalAPIError env.unmarshal method path body result).run
      env.transport).2 }

/-- Go `Client.get` (client.go:222). -/
def Client.get {β τ : Type} (env : Env β τ) (c : Client) (path : String)
    (result : Option τ) : Outcome β τ :=
  c.makeRequest env "GET" path none result

/-- Go `Client.post` (client.go:227). -/
def Client.post {β τ : Type} (env : Env β τ) (c : Client) (path : String)
    (body : Option β) (result : Option τ) : Outcome β τ :=
  c.makeRequest env "POST" path body result

/-- Go `Client.put` (client.go:232). -/
def Client.put {β τ : Type} (env : Env β τ) (c : Client) (path : String)
    (body : Option β) (result : Option τ) : Outcome β τ :=
  c.makeRequest env "PUT" path body result

/-- Go `Client.delete` (client.go:237). -/
def Client.delete {β τ : Type} (env : Env β τ) (c : Client) (path : String) : Outcome β τ :=
  c.makeRequest env "DELETE" path none none

/-- Go `Client.patch` (client.go:242). -/
def Client.patch {β τ : Type} (env : Env β τ) (c : Client) (path : String)
    (body : Option β) (result : Option τ) : Outcome β τ :=
  c.makeRequest env "PATCH" path body result

/-! ## Response shapes and facades

Every facade of the package that returns a value and an error, file by file.
A facade that returns `(*T, error)` is a pair whose first component is the
returned pointer (`none` would be nil) with the content of the local it points
to after the call. A facade that returns `([]T, error)` is a pair whose first
component is the returned slice.

A request that the source takes by pointer (`req *CreateOrderRequest`,
`address *Address`, ...) is given by the value a non-nil pointer points to: a
nil request is outside the model, since the body handed to the transport would
be a non-nil interface around a nil pointer, not a request the transport can
serialise. A service is one set up by `NewClient`, so its `client` pointer is
not nil either. -/

/-- A Go slice value: `none` is the nil slice, `some xs` a non-nil slice with the
elements `xs`. -/
abbrev Slice (α : Type) := Option (List α)

/-- A Go `map[string]T` value, as its key/value pairs. -/
abbrev StringMap (α : Type) := List (String × α)

/-- Go `time.Time`: an instant, as seconds and nanoseconds from the zero time
(January 1, year 1, 00:00:00 UTC). -/
structure Time where
  sec : Int := 0
  nsec : Nat := 0

/-! ### tracking.go -/

/-- Go `TrackingEvent` (tracking.go:28). -/
structure TrackingEvent where
  Timestamp : Time := {}
  Status : String := ""
  Description : String := ""
  Location : String := ""
  Details : String := ""

/-- Go `TrackingInfo` (tracking.go:14); the defaults are the Go zero value. -/
structure TrackingInfo where
  TrackingNumber : String := ""
  Carrier : String := ""
  Status : String := ""
  EstimatedDelivery : Option Time := none
  ActualDelivery : Option Time := none
  Events : Slice TrackingEvent := none
  CurrentLocation : String := ""
  Delivered : Bool := false
  Exception : Bool := false
  ExceptionReason : String := ""

/-- Go `TrackingService` (tracking.go:9). -/
structure TrackingService where
  client : Client

/-- Go `TrackingService.Track` (tracking.go:37): the pair `(&info, err)`. -/
def TrackingService.Track {β : Type} (env : Env β TrackingInfo) (s : TrackingService)
    (trackingNumber : String) : Option TrackingInfo × Option GoError :=
  let info : TrackingInfo := {}
  let out := s.client.get env ("/api/tracking/" ++ trackingNumber) (some info)
  (some (out.result.getD info), out.err)

/-- Go `TrackingService.TrackWithCarrier` (tracking.go:44): the pair `(&info, err)`. -/
def TrackingService.TrackWithCarrier {β : Type} (env : Env β TrackingInfo)
    (s : TrackingService) (trackingNumber carrier : String) :
    Option TrackingInfo × Option GoError :=
  let info : TrackingInfo := {}
  let out := s.client.get env ("/api/tracking/" ++ trackingNumber ++ "?carrier=" ++ carrier)
    (some info)
  (some (out.result.getD info), out.err)

/-- Go `TrackingService.BatchTrack` (tracking.go:51): the pair `(infos, err)`. The
body is the map with the single key "trackingNumbers". -/
def TrackingService.BatchTrack (env : Env (StringMap (Slice String)) (Slice TrackingInfo))
    (s : TrackingService) (trackingNumbers : Slice String) :
    Slice TrackingInfo × Option GoError :=
  let infos : Slice TrackingInfo := none
  let req : StringMap (Slice String) := [("trackingNumbers", trackingNumbers)]
  let out := s.client.post env "/api/tracking/batch" (some req) (some infos)
  (out.result.getD infos, out.err)

/-! ### orders.go -/

/-- Go `OrderItem` (orders.go:58). -/
structure OrderItem where
  Name : String := ""
  SKU : String := ""
  Quantity : Int := 0
  UnitPrice : Float := 0
  Weight : Float := 0
  WeightUnit : String := ""
  Description : String := ""
  ImageURL : String := ""
  HSCode : String := ""

/-- Go `Order` (orders.go:15); the defaults are the Go zero value. -/
structure Order where
  ID : String := ""
  OrderNumber : String := ""
  Source : String := ""
  Status : String := ""
  RecipientName : String := ""
  RecipientCompany : String := ""
  RecipientStreet1 : String := ""
  RecipientStreet2 : String := ""
  RecipientCity : String := ""
  RecipientState : String := ""
  RecipientPostal : String := ""
  RecipientCountry : String := ""
  RecipientPhone : String := ""
  RecipientEmail : String := ""
  SenderName : String := ""
  SenderCompany : String := ""
  SenderStreet1 : String := ""
  SenderStreet2 : String := ""
  SenderCity : String := ""
  SenderState : String := ""
  SenderPostal : String := ""
  SenderCountry : String := ""
  SenderPhone : String := ""
  SenderEmail : String := ""
  Items : Slice OrderItem := none
  TotalWeight : Float := 0
  WeightUnit : String := ""
  TotalValue : Float := 0
  Currency : String := ""
  ShippingCost : Float := 0
  TrackingNumber : String := ""
  CarrierService : String := ""
  ShippedAt : Option Time := none
  DeliveredAt : Option Time := none
  Notes : String := ""
  Tags : Slice String := none
  Metadata : Option (List (String × Json)) := none
  CreatedAt : Time := {}
  UpdatedAt : Time := {}

/-- Go `CreateOrderRequest` (orders.go:71). -/
structure CreateOrderRequest where
  OrderNumber : String := ""
  Source : String := ""
  RecipientName : String := ""
  RecipientCompany : String := ""
  RecipientStreet1 : String := ""
  RecipientStreet2 : String := ""
  RecipientCity : String := ""
  RecipientState : String := ""
  RecipientPostal : String := ""
  RecipientCountry : String := ""
  RecipientPhone : String := ""
  RecipientEmail : String := ""
  SenderName : String := ""
  SenderCompany : String := ""
  SenderStreet1 : String := ""
  SenderStreet2 : String := ""
  SenderCity : String := ""
  SenderState : String := ""
  SenderPostal : String := ""
  SenderCountry : String := ""
  SenderPhone : String := ""
  SenderEmail : String := ""
  Items : Slice OrderItem := none
  WeightUnit : String := ""
  Currency : String := ""
  Notes : String := ""
  Tags : Slice String := none
  Metadata : Option (List (String × Json)) := none

/-- Go `UpdateOrderRequest` (orders.go:103). -/
structure UpdateOrderRequest where
  Status : String := ""
  RecipientName : String := ""
  RecipientCompany : String := ""
  RecipientStreet1 : String := ""
  RecipientStreet2 : String := ""
  RecipientCity : String := ""
  RecipientState : String := ""
  RecipientPostal : String := ""
  RecipientCountry : String := ""
  RecipientPhone : String := ""
  RecipientEmail : String := ""
  Items : Slice OrderItem := none
  Notes : String := ""
  Tags : Slice String := none
  Metadata : Option (List (String × Json)) := none

/-- Go `ListOrdersOptions` (orders.go:122). -/
structure ListOrdersOptions where
  Page : Int := 0
  Limit : Int := 0
  Status : String := ""
  Source : String := ""
  Search : String := ""
  StartDate : String := ""
  EndDate : String := ""
  SortBy : String := ""
  SortOrder : String := ""

/-- Go `OrderListResponse` (orders.go:135). -/
structure OrderListResponse where
  Orders : Slice Order := none
  Total : Int := 0
  Page : Int := 0
  Limit : Int := 0
  HasMore : Bool := false

/-- Go `FailedOrder` (orders.go:220). -/
structure FailedOrder where
  Order : CreateOrderRequest := {}
  Error : String := ""

/-- Go `BulkCreateResponse` (orders.go:214). -/
structure BulkCreateResponse where
  Successful : Slice Order := none
  Failed : Slice FailedOrder := none

/-- Go `OrdersService` (orders.go:10). -/
structure OrdersService where
  client : Client

/-- Go `OrdersService.Create` (orders.go:144): the pair `(&order, err)`. -/
def OrdersService.Create (env : Env CreateOrderRequest Order) (s : OrdersService)
    (req : CreateOrderRequest) : Option Order × Option GoError :=
  let order : Order := {}
  let out := s.client.post env "/api/orders" (some req) (some order)
  (some (out.result.getD order), out.err)

/-- Go `OrdersService.Get` (orders.go:151): the pair `(&order, err)`. -/
def OrdersService.Get {β : Type} (env : Env β Order) (s : OrdersService)
    (orderID : String) : Option Order × Option GoError :=
  let order : Order := {}
  let out := s.client.get env ("/api/orders/" ++ orderID) (some order)
  (some (out.result.getD order), out.err)

/-- Go `OrdersService.Update` (orders.go:158): the pair `(&order, err)`. -/
def OrdersService.Update (env : Env UpdateOrderRequest Order) (s : OrdersService)
    (orderID : String) (req : UpdateOrderRequest) : Option Order × Option GoError :=
  let order : Order := {}
  let out := s.client.put env ("/api/orders/" ++ orderID) (some req) (some order)
  (some (out.result.getD order), out.err)

/-- The call `OrdersService.List` makes (orders.go:166-174): `opts` is `none`
for a nil pointer; the branch for a non-nil `opts` holds only a TODO comment. -/
def OrdersService.ListCall {β : Type} (env : Env β OrderListResponse) (s : OrdersService)
    (opts : Option ListOrdersOptions) : Outcome β OrderListResponse :=
  let resp : OrderListResponse := {}
  let path := "/api/orders"
  let path := match opts with
    | some _ => path
    | none => path
  s.client.get env path (some resp)

/-- Go `OrdersService.List` (orders.go:165): the pair `(&resp, err)`. -/
def OrdersService.List {β : Type} (env : Env β OrderListResponse) (s : OrdersService)
    (opts : Option ListOrdersOptions) : Option OrderListResponse × Option GoError :=
  let resp : OrderListResponse := {}
  let out := s.ListCall env opts
  (some (out.result.getD resp), out.err)

/-- The call `OrdersService.Delete` makes (orders.go:180). -/
def OrdersService.DeleteCall {β τ : Type} (env : Env β τ) (s : OrdersService)
    (orderID : String) : Outcome β τ :=
  s.client.delete env ("/api/orders/" ++ orderID)

/-- Go `OrdersService.Delete` (orders.go:179): the returned error. -/
def OrdersService.Delete {β τ : Type} (env : Env β τ) (s : OrdersService)
    (orderID : String) : Option GoError :=
  (s.DeleteCall env orderID).err

/-- Go `OrdersService.Ship` (orders.go:184): the pair `(&order, err)`. The body is
the map with the keys "trackingNumber" and "carrier". -/
def OrdersService.Ship (env : Env (StringMap String) Order) (s : OrdersService)
    (orderID trackingNumber carrier : String) : Option Order × Option GoError :=
  let req : StringMap String :=
    [("trackingNumber", trackingNumber), ("carrier", carrier)]
  let order : Order := {}
  let out := s.client.post env ("/api/orders/" ++ orderID ++ "/ship") (some req) (some order)
  (some (out.result.getD order), out.err)

/-- Go `OrdersService.Cancel` (orders.go:195): the pair `(&order, err)`. The body
is the map with the key "reason". -/
def OrdersService.Cancel (env : Env (StringMap String) Order) (s : OrdersService)
    (orderID reason : String) : Option Order × Option GoError :=
  let req : StringMap String := [("reason", reason)]
  let order : Order := {}
  let out := s.client.post env ("/api/orders/" ++ orderID ++ "/cancel") (some req)
    (some order)
  (some (out.result.getD order), out.err)

/-- Go `OrdersService.BulkCreate` (orders.go:205): the pair `(&resp, err)`. The
body is the map with the key "orders"; an element of `orders` may be a nil
pointer. -/
def OrdersService.BulkCreate
    (env : Env (StringMap (Slice (Option CreateOrderRequest))) BulkCreateResponse)
    (s : OrdersService) (orders : Slice (Option CreateOrderRequest)) :
    Option BulkCreateResponse × Option GoError :=
  let resp : BulkCreateResponse := {}
  let out := s.client.post env "/api/orders/batch" (some [("orders", orders)]) (some resp)
  (some (out.result.getD resp), out.err)

/-! ### addresses.go -/

/-- Go `Address` (addresses.go:14); `Type_` is the field `Type`. -/
structure Address where
  ID : String := ""
  Type_ : String := ""
  Name : String := ""
  Company : String := ""
  Street1 : String := ""
  Street2 : String := ""
  City : String := ""
  State : String := ""
  PostalCode : String := ""
  Country : String := ""
  Phone : String := ""
  Email : String := ""
  IsResidential : Bool := false
  Validated : Bool := false

/-- Go `ValidateAddressRequest` (addresses.go:32). -/
structure ValidateAddressRequest where
  Name : String := ""
  Company : String := ""
  Street1 : String := ""
  Street2 : String := ""
  City : String := ""
  State : String := ""
  PostalCode : String := ""
  Country : String := ""

/-- Go `ValidateAddressResponse` (addresses.go:44). -/
structure ValidateAddressResponse where
  IsValid : Bool := false
  Address : Option Address := none
  Suggestions : Slice Atoship.Address := none
  Errors : Slice String := none

/-- Go `AddressesService` (addresses.go:9). -/
structure AddressesService where
  client : Client

/-- Go `AddressesService.Create` (addresses.go:52): the pair `(&result, err)`. -/
def AddressesService.Create (env : Env Address Address) (s : AddressesService)
    (address : Address) : Option Address × Option GoError :=
  let result : Address := {}
  let out := s.client.post env "/api/addresses" (some address) (some result)
  (some (out.result.getD result), out.err)

/-- Go `AddressesService.Get` (addresses.go:59): the pair `(&address, err)`. -/
def AddressesService.Get {β : Type} (env : Env β Address) (s : AddressesService)
    (addressID : String) : Option Address × Option GoError :=
  let address : Address := {}
  let out := s.client.get env ("/api/addresses/" ++ addressID) (some address)
  (some (out.result.getD address), out.err)

/-- Go `AddressesService.Update` (addresses.go:66): the pair `(&result, err)`. -/
def AddressesService.Update (env : Env Address Address) (s : AddressesService)
    (addressID : String) (address : Address) : Option Address × Option GoError :=
  let result : Address := {}
  let out := s.client.put env ("/api/addresses/" ++ addressID) (some address) (some result)
  (some (out.result.getD result), out.err)

/-- Go `AddressesService.List` (addresses.go:73): the pair `(addresses, err)`. -/
def AddressesService.List {β : Type} (env : Env β (Slice Address)) (s : AddressesService) :
    Slice Address × Option GoError :=
  let addresses : Slice Address := none
  let out := s.client.get env "/api/addresses" (some addresses)
  (out.result.getD addresses, out.err)

/-- Go `AddressesService.Delete` (addresses.go:80): the returned error. -/
def AddressesService.Delete {β τ : Type} (env : Env β τ) (s : AddressesService)
    (addressID : String) : Option GoError :=
  (s.client.delete env ("/api/addresses/" ++ addressID)).err

/-- Go `AddressesService.Validate` (addresses.go:85): the pair `(&resp, err)`. -/
def AddressesService.Validate (env : Env ValidateAddressRequest ValidateAddressResponse)
    (s : AddressesService) (req : ValidateAddressRequest) :
    Option ValidateAddressResponse × Option GoError :=
  let resp : ValidateAddressResponse := {}
  let out := s.client.post env "/api/addresses/validate" (some req) (some resp)
  (some (out.result.getD resp), out.err)

/-- The call `AddressesService.Search` makes (addresses.go:93-98); `%s` formats
a string as it is. -/
def AddressesService.SearchCall {β : Type} (env : Env β (Slice Address))
    (s : AddressesService) (query country : String) : Outcome β (Slice Address) :=
  let addresses : Slice Address := none
  let path := "/api/address-search?q=" ++ query
  let path := if country != "" then path ++ ("&country=" ++ country) else path
  s.client.get env path (some addresses)

/-- Go `AddressesService.Search` (addresses.go:92): the pair `(addresses, err)`. -/
def AddressesService.Search {β : Type} (env : Env β (Slice Address)) (s : AddressesService)
    (query country : String) : Slice Address × Option GoError :=
  let addresses : Slice Address := none
  let out := s.SearchCall env query country
  (out.result.getD addresses, out.err)

/-! ### shipping.go -/

/-- Go `Parcel` (shipping.go:14). -/
structure Parcel where
  Length : Float := 0
  Width : Float := 0
  Height : Float := 0
  DimUnit : String := ""
  Weight : Float := 0
  WeightUnit : String := ""

/-- Go `RateRequest` (shipping.go:24). -/
structure RateRequest where
  FromAddress : Option Address := none
  ToAddress : Option Address := none
  Parcel : Option Parcel := none
  ShipDate : String := ""
  Insurance : Float := 0

/-- Go `ShippingRate` (shipping.go:33). -/
structure ShippingRate where
  ID : String := ""
  Carrier : String := ""
  Service : String := ""
  ServiceCode : String := ""
  Rate : Float := 0
  Currency : String := ""
  DeliveryDays : Int := 0
  DeliveryDate : Time := {}
  Insurance : Float := 0
  Tracking : Bool := false

/-- Go `CustomsItem` (shipping.go:75). -/
structure CustomsItem where
  Description : String := ""
  Quantity : Int := 0
  Value : Float := 0
  Weight : Float := 0
  OriginCountry : String := ""
  HSTariffNumber : String := ""

/-- Go `CustomsInfo` (shipping.go:68). -/
structure CustomsInfo where
  ContentsType : String := ""
  ContentsExplanation : String := ""
  CustomsItems : Slice CustomsItem := none

/-- Go `PurchaseLabelRequest` (shipping.go:47). -/
structure PurchaseLabelRequest where
  RateID : String := ""
  OrderID : String := ""
  LabelFormat : String := ""
  Customs : Option CustomsInfo := none
  ReturnLabel : Bool := false

/-- Go `ShippingLabel` (shipping.go:56). -/
structure ShippingLabel where
  ID : String := ""
  TrackingNumber : String := ""
  LabelURL : String := ""
  LabelPDF : String := ""
  Carrier : String := ""
  Service : String := ""
  Rate : Float := 0
  CreatedAt : Time := {}

/-- Go `ShippingService` (shipping.go:9). -/
structure ShippingService where
  client : Client

/-- Go `ShippingService.GetRates` (shipping.go:85): the pair `(rates, err)`. -/
def ShippingService.GetRates (env : Env RateRequest (Slice ShippingRate))
    (s : ShippingService) (req : RateRequest) : Slice ShippingRate × Option GoError :=
  let rates : Slice ShippingRate := none
  let out := s.client.post env "/api/carriers/smart-rates" (some req) (some rates)
  (out.result.getD rates, out.err)

/-- Go `ShippingService.PurchaseLabel` (shipping.go:92): the pair `(&label, err)`. -/
def ShippingService.PurchaseLabel (env : Env PurchaseLabelRequest ShippingLabel)
    (s : ShippingService) (req : PurchaseLabelRequest) :
    Option ShippingLabel × Option GoError :=
  let label : ShippingLabel := {}
  let out := s.client.post env "/api/labels/purchase-v2" (some req) (some label)
  (some (out.result.getD label), out.err)

/-- Go `ShippingService.GetLabel` (shipping.go:99): the pair `(&label, err)`. -/
def ShippingService.GetLabel {β : Type} (env : Env β ShippingLabel) (s : ShippingService)
    (labelID : String) : Option ShippingLabel × Option GoError :=
  let label : ShippingLabel := {}
  let out := s.client.get env ("/api/labels/" ++ labelID) (some label)
  (some (out.result.getD label), out.err)

/-- Go `ShippingService.CancelLabel` (shipping.go:106): the pair `(&label, err)`;
the body is nil. -/
def ShippingService.CancelLabel {β : Type} (env : Env β ShippingLabel) (s : ShippingService)
    (labelID : String) : Option ShippingLabel × Option GoError :=
  let label : ShippingLabel := {}
  let out := s.client.post env ("/api/labels/" ++ labelID ++ "/cancel") none (some label)
  (some (out.result.getD label), out.err)

/-! ### users.go, admin.go, carriers.go, webhooks.go -/

/-- Go `User` (users.go:11). -/
structure User where
  ID : String := ""
  Email : String := ""
  Name : String := ""
  Role : String := ""
  Company : String := ""
  Phone : String := ""
  Active : Bool := false

/-- Go `UsersService` (users.go:6). -/
structure UsersService where
  client : Client

/-- Go `UsersService.GetProfile` (users.go:22): the pair `(&user, err)`. -/
def UsersService.GetProfile {β : Type} (env : Env β User) (s : UsersService) :
    Option User × Option GoError :=
  let user : User := {}
  let out := s.client.get env "/api/profile" (some user)
  (some (out.result.getD user), out.err)

/-- Go `UsersService.UpdateProfile` (users.go:29): the pair `(&user, err)`. -/
def UsersService.UpdateProfile (env : Env User User) (s : UsersService) (updates : User) :
    Option User × Option GoError :=
  let user : User := {}
  let out := s.client.put env "/api/profile" (some updates) (some user)
  (some (out.result.getD user), out.err)

/-- Go `Stats` (admin.go:11). -/
structure Stats where
  TotalOrders : Int := 0
  TotalShipments : Int := 0
  TotalRevenue : Float := 0
  ActiveUsers : Int := 0

/-- Go `AdminService` (admin.go:6). -/
structure AdminService where
  client : Client

/-- Go `AdminService.GetStats` (admin.go:19): the pair `(&stats, err)`. -/
def AdminService.GetStats {β : Type} (env : Env β Stats) (s : AdminService) :
    Option Stats × Option GoError :=
  let stats : Stats := {}
  let out := s.client.get env "/api/admin/stats" (some stats)
  (some (out.result.getD stats), out.err)

/-- Go `Carrier` (carriers.go:11). -/
structure Carrier where
  ID : String := ""
  Name : String := ""
  Code : String := ""
  Active : Bool := false
  Services : Slice String := none

/-- Go `CarriersService` (carriers.go:6). -/
structure CarriersService where
  client : Client

/-- Go `CarriersService.List` (carriers.go:20): the pair `(carriers, err)`. -/
def CarriersService.List {β : Type} (env : Env β (Slice Carrier)) (s : CarriersService) :
    Slice Carrier × Option GoError :=
  let carriers : Slice Carrier := none
  let out := s.client.get env "/api/carriers" (some carriers)
  (out.result.getD carriers, out.err)

/-- Go `Webhook` (webhooks.go:14). -/
structure Webhook where
  ID : String := ""
  URL : String := ""
  Events : Slice String := none
  Active : Bool := false
  Secret : String := ""

/-- Go `CreateWebhookRequest` (webhooks.go:23). -/
structure CreateWebhookRequest where
  URL : String := ""
  Events : Slice String := none
  Active : Bool := false

/-- Go `WebhooksService` (webhooks.go:9). -/
structure WebhooksService where
  client : Client

/-- Go `WebhooksService.Create` (webhooks.go:30): the pair `(&webhook, err)`. -/
def WebhooksService.Create (env : Env CreateWebhookRequest Webhook) (s : WebhooksService)
    (req : CreateWebhookRequest) : Option Webhook × Option GoError :=
  let webhook : Webhook := {}
  let out := s.client.post env "/api/admin/webhooks" (some req) (some webhook)
  (some (out.result.getD webhook), out.err)

/-- Go `WebhooksService.List` (webhooks.go:37): the pair `(webhooks, err)`. -/
def WebhooksService.List {β : Type} (env : Env β (Slice Webhook)) (s : WebhooksService) :
    Slice Webhook × Option GoError :=
  let webhooks : Slice Webhook := none
  let out := s.client.get env "/api/admin/webhooks" (some webhooks)
  (out.result.getD webhooks, out.err)

/-- Go `WebhooksService.Delete` (webhooks.go:44): the returned error. -/
def WebhooksService.Delete {β τ : Type} (env : Env β τ) (s : WebhooksService)
    (webhookID : String) : Option GoError :=
  (s.client.delete env ("/api/admin/webhooks/" ++ webhookID)).err

/-- What a facade returning `(*T, error)` returns, for the zero value `zero` of
`T`: a non-nil pointer on every path, and behind it the zero value whenever the
error is an `*APIError`. -/
def PointerWithError {τ : Type} (zero : τ) (r : Option τ × Option GoError) : Prop :=
  r.1 ≠ none ∧ ∀ e : APIError, r.2 = some (.apiError e) → r.1 = some zero

/-- What a facade returning `([]T, error)` returns: the nil slice whenever the
error is an `*APIError`. -/
def NilSliceWithError {α : Type} (r : Slice α × Option GoError) : Prop :=
  ∀ e : APIError, r.2 = some (.apiError e) → r.1 = none

/-! ## Concrete environments -/

/-- The four options the package provides (client.go:80-107), as data, so that
a list of them can be quantified over. -/
inductive OptionSpec where
  | withBaseURL (url : String)
  | withTimeout (timeout : Int)
  | withRetryCount (count : Int)
  | withDebug (debug : Bool)

/-- The `ClientOption` an `OptionSpec` stands for. -/
def OptionSpec.toOption : OptionSpec → ClientOption
  | .withBaseURL url => WithBaseURL url
  | .withTimeout timeout => WithTimeout timeout
  | .withRetryCount count => WithRetryCount count
  | .withDebug debug => WithDebug debug

/-- Whether the option is a `WithBaseURL`. -/
def OptionSpec.isWithBaseURL : OptionSpec → Bool
  | .withBaseURL _ => true
  | _ => false


/-- The methods the dispatcher contract lists: GET, POST, PUT, PATCH, DELETE. -/
def supportedMethods : List String := ["GET", "POST", "PUT", "PATCH", "DELETE"]

/-- An environment over the JSON model whose transport answers every request
with `outcome`; the destination is a Go `string`. -/
def stringEnv (outcome : Except String Response) : Env String String :=
  { transport := fun _ => outcome,
    unmarshalAPIError := JSON.unmarshalAPIError,
    unmarshal := JSON.unmarshalString }

/-- An environment over the JSON model for a struct destination `τ`, whose
transport answers every request with `outcome`. Error bodies are decoded by the
JSON model. The decoding of a payload into the fields of `τ` is not modelled:
the instances below are exchanges on which `makeRequest` does not reach the
payload decoding, and `unmarshal` is fixed to the function that leaves the
destination as it is. -/
def structEnv {β τ : Type} (outcome : Except String Response) : Env β τ :=
  { transport := fun _ => outcome,
    unmarshalAPIError := JSON.unmarshalAPIError,
    unmarshal := fun _ dst => (dst, none) }

/-- A 200 response whose envelope carries the JSON string "shipped". -/
def respShipped : Response :=
  { StatusCode := 200,
    Body := "\x7b\"success\":true,\"data\":\"shipped\"\x7d",
    Result := { Success := true, Data := some "\"shipped\"" } }

/-- A 200 response whose envelope carries the JSON number 42. -/
def respNumber : Response :=
  { StatusCode := 200,
    Body := "\x7b\"success\":true,\"data\":42\x7d",
    Result := { Success := true, Data := some "42" } }

/-- A 200 response whose envelope reports a failure and still carries a payload. -/
def respEnvelopeFailure : Response :=
  { StatusCode := 200,
    Body := "\x7b\"success\":false,\"data\":\"stale\",\"error\":\"insufficient funds\",\"requestId\":\"req-7\"\x7d",
    Result := { Success := false, Data := some "\"stale\"", Error := "insufficient funds",
                RequestID := "req-7" } }

/-- A 400 response with an error body; the body declares status 422. -/
def respValidation : Response :=
  { StatusCode := 400,
    Body := "\x7b\"code\":\"VALIDATION_ERROR\",\"message\":\"recipientStreet1 is required\",\"statusCode\":422,\"requestId\":\"req-42\",\"details\":[\"recipientStreet1\"]\x7d",
    Result := {} }

/-- A 404 response with an error body. -/
def respNotFound : Response :=
  { StatusCode := 404,
    Body := "\x7b\"code\":\"NOT_FOUND\",\"message\":\"tracking number not found\",\"statusCode\":404,\"requestId\":\"req-9\"\x7d",
    Result := {} }

/-- A 402 response whose error body carries a code outside the SDK constants. -/
def respPaymentRequired : Response :=
  { StatusCode := 402,
    Body := "\x7b\"code\":\"PAYMENT_REQUIRED\",\"message\":\"card declined\"\x7d",
    Result := {} }

/-- A 200 response whose envelope has success=true and no data field. -/
def respNoData : Response :=
  { StatusCode := 200,
    Body := "\x7b\"success\":true\x7d",
    Result := { Success := true, Data := none } }

/-- A 500 response with an empty body. -/
def respEmpty500 : Response := { StatusCode := 500, Body := "", Result := {} }

/-- A 502 response whose body is not JSON. -/
def respBadGateway : Response :=
  { StatusCode := 502, Body := "<html>Bad Gateway</html>", Result := {} }

/-! ## Properties of the dispatcher -/

set_option maxRecDepth 100000

theorem supportedMethod_of_mem {method : String} (h : method ∈ supportedMethods) :
    supportedMethod method = true := by
  simp only [supportedMethods, List.mem_cons, List.mem_singleton, List.not_mem_nil,
    or_false] at h
  rcases h with h | h | h | h | h <;> subst h <;> decide

theorem not_mem_of_supportedMethod_false {method : String}
    (h : supportedMethod method = false) : method ∉ supportedMethods := by
  intro hmem
  rw [supportedMethod_of_mem hmem] at h
  exact Bool.noConfusion h

theorem isError_false_of_2xx {resp : Response}
    (h : 200 ≤ resp.StatusCode ∧ resp.StatusCode ≤ 299) : resp.IsError = false := by
  simp only [Response.IsError, decide_eq_false_iff_not, not_lt]
  omega

theorem isError_true_of_ge_400 {resp : Response} (h : 400 ≤ resp.StatusCode) :
    resp.IsError = true := by
  simp only [Response.IsError, decide_eq_true_eq]
  omega

/-- C1: a supported method, a completed exchange with a 2xx status, an envelope
with success=true and a present payload that decodes into the destination:
`makeRequest` returns a nil error and the destination holds the decoded value. -/
theorem makeRequest_success_decodes {β τ : Type} (env : Env β τ) (c : Client)
    (method path : String) (body : Option β) (dst v : τ) (resp : Response) (data : RawMessage)
    (hm : method ∈ supportedMethods)
    (ht : env.transport { client := c.httpClient, Method := method, URL := path, Body := body }
      = .ok resp)
    (hs : 200 ≤ resp.StatusCode ∧ resp.StatusCode ≤ 299)
    (hok : resp.Result.Success = true)
    (hd : resp.Result.Data = some data)
    (hdec : env.unmarshal data dst = (v, none)) :
    (c.makeRequest env method path body (some dst)).err = none ∧
      (c.makeRequest env method path body (some dst)).result = some v := by
  simp [Client.makeRequest, Client.dispatch, Dispatch.run,
      supportedMethod_of_mem hm, ht, isError_false_of_2xx hs, hok, hd, hdec]

/-- C1 at a concrete input: a 200 response whose envelope carries the JSON
string "shipped" decodes into a Go string destination. -/
theorem makeRequest_success_decodes_witness :
    ((NewClient "test-key" []).makeRequest (stringEnv (.ok respShipped))
        "GET" "/api/status" none (some "")).err = none ∧
    ((NewClient "test-key" []).makeRequest (stringEnv (.ok respShipped))
        "GET" "/api/status" none (some "")).result = some "shipped" :=
  makeRequest_success_decodes _ _ "GET" "/api/status" none "" "shipped" respShipped "\"shipped\""
    (by decide) rfl (by decide) rfl rfl (by decide)

/-- C2: a supported method and a transport that fails: `makeRequest` returns an
`*APIError` with code NETWORK_ERROR, status code 0 and the description of the
transport failure as message, and the destination is left as it was. -/
theorem makeRequest_transport_failure {β τ : Type} (env : Env β τ) (c : Client)
    (method path : String) (body : Option β) (result : Option τ) (msg : String)
    (hm : method ∈ supportedMethods)
    (ht : env.transport { client := c.httpClient, Method := method, URL := path, Body := body }
      = .error msg) :
    (c.makeRequest env method path body result).err =
        some (.apiError { Code := "NETWORK_ERROR", Message := msg, StatusCode := 0,
                          RequestID := "", Details := none }) ∧
      (c.makeRequest env method path body result).result = result := by
  simp [Client.makeRequest, Client.dispatch, Dispatch.run,
      supportedMethod_of_mem hm, ht, ErrCodeNetworkError]

/-- C2 at a concrete input: a refused connection on a POST. -/
theorem makeRequest_transport_failure_witness :
    ((NewClient "test-key" []).makeRequest (stringEnv (.error "dial tcp: connection refused"))
        "POST" "/api/orders" (some "order") (some "before")).err =
      some (.apiError { Code := "NETWORK_ERROR", Message := "dial tcp: connection refused",
                        StatusCode := 0, RequestID := "", Details := none }) ∧
    ((NewClient "test-key" []).makeRequest (stringEnv (.error "dial tcp: connection refused"))
        "POST" "/api/orders" (some "order") (some "before")).result = some "before" :=
  makeRequest_transport_failure _ _ "POST" "/api/orders" (some "order") (some "before")
    "dial tcp: connection refused" (by decide) rfl

/-- C3: a completed exchange with status 400 or above, whatever the body:
`makeRequest` returns an `*APIError` whose status code is the actual HTTP
status, and the destination is left as it was. -/
theorem makeRequest_http_error_status {β τ : Type} (env : Env β τ) (c : Client)
    (method path : String) (body : Option β) (result : Option τ) (resp : Response)
    (hm : method ∈ supportedMethods)
    (ht : env.transport { client := c.httpClient, Method := method, URL := path, Body := body }
      = .ok resp)
    (hs : 400 ≤ resp.StatusCode) :
    (∃ e : APIError, (c.makeRequest env method path body result).err = some (.apiError e) ∧
        e.StatusCode = resp.StatusCode) ∧
      (c.makeRequest env method path body result).result = result := by
  rcases hdec : env.unmarshalAPIError resp.Body {} with ⟨e, _ | msg⟩ <;>
    simp [Client.makeRequest, Client.dispatch, Dispatch.run,
        supportedMethod_of_mem hm, ht, isError_true_of_ge_400 hs, hdec]

/-- C3 at a concrete input: a 400 response whose body declares status 422. -/
theorem makeRequest_http_error_status_witness :
    (∃ e : APIError,
        ((NewClient "test-key" []).makeRequest (stringEnv (.ok respValidation))
          "POST" "/api/orders" (some "order") (some "before")).err = some (.apiError e) ∧
        e.StatusCode = 400) ∧
    ((NewClient "test-key" []).makeRequest (stringEnv (.ok respValidation))
        "POST" "/api/orders" (some "order") (some "before")).result = some "before" :=
  makeRequest_http_error_status _ _ "POST" "/api/orders" (some "order") (some "before")
    respValidation (by decide) rfl (by decide)

/-- C4: a completed exchange with status 400 or above whose body does not
decode as an `APIError`: `makeRequest` returns an `*APIError` with code
SERVER_ERROR, the raw body as message and the actual HTTP status. -/
theorem makeRequest_undecodable_error_body {β τ : Type} (env : Env β τ) (c : Client)
    (method path : String) (body : Option β) (result : Option τ) (resp : Response)
    (hm : method ∈ supportedMethods)
    (ht : env.transport { client := c.httpClient, Method := method, URL := path, Body := body }
      = .ok resp)
    (hs : 400 ≤ resp.StatusCode)
    (hdec : (env.unmarshalAPIError resp.Body {}).2 ≠ none) :
    (c.makeRequest env method path body result).err =
      some (.apiError { Code := "SERVER_ERROR", Message := resp.Body,
                        StatusCode := resp.StatusCode, RequestID := "", Details := none }) := by
  rcases h : env.unmarshalAPIError resp.Body {} with ⟨e, _ | msg⟩
  · simp [h] at hdec
  · simp [Client.makeRequest, Client.dispatch, Dispatch.run,
      supportedMethod_of_mem hm, ht, isError_true_of_ge_400 hs, h,
      ErrCodeServerError]

/-- C4 at a concrete input: a 500 response with an empty body, which the JSON
model rejects. -/
theorem makeRequest_undecodable_error_body_witness :
    ((NewClient "test-key" []).makeRequest (stringEnv (.ok respEmpty500))
        "GET" "/api/orders/42" none (some "")).err =
      some (.apiError { Code := "SERVER_ERROR", Message := "", StatusCode := 500,
                        RequestID := "", Details := none }) :=
  makeRequest_undecodable_error_body _ _ "GET" "/api/orders/42" none (some "") respEmpty500
    (by decide) rfl (by decide) (by decide)

/-- C5: a completed exchange with a 2xx status whose envelope has success=false:
`makeRequest` returns an `*APIError` with code API_ERROR, the error field of the
envelope as message and its requestId as request id, and the destination is
left as it was, whatever payload the envelope carries. -/
theorem makeRequest_envelope_failure {β τ : Type} (env : Env β τ) (c : Client)
    (method path : String) (body : Option β) (result : Option τ) (resp : Response)
    (hm : method ∈ supportedMethods)
    (ht : env.transport { client := c.httpClient, Method := method, URL := path, Body := body }
      = .ok resp)
    (hs : 200 ≤ resp.StatusCode ∧ resp.StatusCode ≤ 299)
    (hfail : resp.Result.Success = false) :
    (c.makeRequest env method path body result).err =
        some (.apiError { Code := "API_ERROR", Message := resp.Result.Error, StatusCode := 0,
                          RequestID := resp.Result.RequestID, Details := none }) ∧
      (c.makeRequest env method path body result).result = result := by
  simp [Client.makeRequest, Client.dispatch, Dispatch.run,
      supportedMethod_of_mem hm, ht, isError_false_of_2xx hs, hfail]

/-- C5 at a concrete input: a 200 response with success=false that also carries
a payload. -/
theorem makeRequest_envelope_failure_witness :
    ((NewClient "test-key" []).makeRequest (stringEnv (.ok respEnvelopeFailure))
        "GET" "/api/status" none (some "before")).err =
      some (.apiError { Code := "API_ERROR", Message := "insufficient funds", StatusCode := 0,
                        RequestID := "req-7", Details := none }) ∧
    ((NewClient "test-key" []).makeRequest (stringEnv (.ok respEnvelopeFailure))
        "GET" "/api/status" none (some "before")).result = some "before" :=
  makeRequest_envelope_failure _ _ "GET" "/api/status" none (some "before") respEnvelopeFailure
    (by decide) rfl (by decide) rfl

/-- The seven paths through `makeRequest`, each with the outcome it returns. -/
theorem makeRequest_cases {β τ : Type} (env : Env β τ) (c : Client)
    (method path : String) (body : Option β) (result : Option τ) :
    let req : Request β :=
      { client := c.httpClient, Method := method, URL := path, Body := body }
    let out := c.makeRequest env method path body result
    (supportedMethod method = false ∧
      out = { err := some (.errorf ("unsupported HTTP method: " ++ method)),
              result := result, exchanges := [] }) ∨
    (∃ msg, supportedMethod method = true ∧ env.transport req = .error msg ∧
      out = { err := some (.apiError { Code := "NETWORK_ERROR", Message := msg }),
              result := result, exchanges := [req] }) ∨
    (∃ resp a msg, supportedMethod method = true ∧ env.transport req = .ok resp ∧
      resp.IsError = true ∧ env.unmarshalAPIError resp.Body {} = (a, some msg) ∧
      out = { err := some (.apiError { Code := "SERVER_ERROR", Message := resp.Body,
                                       StatusCode := resp.StatusCode }),
              result := result, exchanges := [req] }) ∨
    (∃ resp a, supportedMethod method = true ∧ env.transport req = .ok resp ∧
      resp.IsError = true ∧ env.unmarshalAPIError resp.Body {} = (a, none) ∧
      out = { err := some (.apiError { a with StatusCode := resp.StatusCode }),
              result := result, exchanges := [req] }) ∨
    (∃ resp, supportedMethod method = true ∧ env.transport req = .ok resp ∧
      resp.IsError = false ∧ resp.Result.Success = false ∧
      out = { err := some (.apiError { Code := "API_ERROR", Message := resp.Result.Error,
                                       RequestID := resp.Result.RequestID }),
              result := result, exchanges := [req] }) ∨
    (∃ resp dst data, supportedMethod method = true ∧ env.transport req = .ok resp ∧
      resp.IsError = false ∧ resp.Result.Success = true ∧ result = some dst ∧
      resp.Result.Data = some data ∧
      out = { err := (env.unmarshal data dst).2.map GoError.jsonError,
              result := some (env.unmarshal data dst).1, exchanges := [req] }) ∨
    (∃ resp, supportedMethod method = true ∧ env.transport req = .ok resp ∧
      resp.IsError = false ∧ resp.Result.Success = true ∧
      (result = none ∨ resp.Result.Data = none) ∧
      out = { err := none, result := result, exchanges := [req] }) := by
  intro req out
  cases hm : supportedMethod method
  · left
    simp [out, Client.makeRequest, Client.dispatch, Dispatch.run, hm]
  · right
    cases ht : env.transport req with
    | error msg =>
      left
      exact ⟨msg, rfl, rfl, by simp [out, Client.makeRequest, Client.dispatch, Dispatch.run,
          hm, req, ht, ErrCodeNetworkError] at *⟩
    | ok resp =>
      right
      cases he : resp.IsError
      · right; right
        cases hsucc : resp.Result.Success
        · left
          exact ⟨resp, rfl, rfl, he, hsucc,
            by simp [out, Client.makeRequest, Client.dispatch, Dispatch.run,
                hm, req, ht, he, hsucc] at *⟩
        · right
          cases result with
          | none =>
            right
            exact ⟨resp, rfl, rfl, he, hsucc, Or.inl rfl,
              by simp [out, Client.makeRequest, Client.dispatch, Dispatch.run,
                  hm, req, ht, he, hsucc] at *⟩
          | some dst =>
            cases hd : resp.Result.Data with
            | none =>
              right
              exact ⟨resp, rfl, rfl, he, hsucc, Or.inr hd,
                by simp [out, Client.makeRequest, Client.dispatch, Dispatch.run,
                    hm, req, ht, he, hsucc, hd] at *⟩
            | some data =>
              left
              exact ⟨resp, dst, data, rfl, rfl, he, hsucc, rfl, hd,
                by simp [out, Client.makeRequest, Client.dispatch, Dispatch.run,
                    hm, req, ht, he, hsucc, hd] at *⟩
      · rcases hdec : env.unmarshalAPIError resp.Body {} with ⟨a, _ | msg⟩
        · right; left
          exact ⟨resp, a, rfl, rfl, he, hdec,
            by simp [out, Client.makeRequest, Client.dispatch, Dispatch.run,
                hm, req, ht, he, hdec] at *⟩
        · left
          exact ⟨resp, a, msg, rfl, rfl, he, hdec,
            by simp [out, Client.makeRequest, Client.dispatch, Dispatch.run,
                hm, req, ht, he, hdec, ErrCodeServerError] at *⟩

/-- Every outcome of `makeRequest` whose error is an `*APIError` leaves the
destination as it was. -/
theorem makeRequest_result_of_apiError {β τ : Type} (env : Env β τ) (c : Client)
    (method path : String) (body : Option β) (result : Option τ) (e : APIError)
    (h : (c.makeRequest env method path body result).err = some (.apiError e)) :
    (c.makeRequest env method path body result).result = result := by
  have hc := makeRequest_cases env c method path body result
  dsimp only at hc
  rcases hc with ⟨_, ho⟩ | ⟨_, _, _, ho⟩ | ⟨_, _, _, _, _, _, _, ho⟩ | ⟨_, _, _, _, _, _, ho⟩ |
    ⟨_, _, _, _, _, ho⟩ | ⟨_, dst, data, _, _, _, _, _, _, ho⟩ | ⟨_, _, _, _, _, _, ho⟩ <;>
    rw [ho] at h ⊢
  case inr.inr.inr.inr.inr.inl =>
    cases hu : (env.unmarshal data dst).2 <;> simp [hu] at h

/-- C6: a completed exchange with status 400 or above whose body decodes as an
error body: the `*APIError` returned by `makeRequest`, and by `Orders.Create`,
carries the code, message, request id and details of the body, with the status
code replaced by the actual HTTP status; a body with code VALIDATION_ERROR
surfaces with that code. -/
theorem makeRequest_error_body_fields {β τ : Type} (env : Env β τ) (c : Client)
    (method path : String) (body : Option β) (result : Option τ)
    (envO : Env CreateOrderRequest Order) (s : OrdersService)
    (req : CreateOrderRequest) (resp : Response) (e : APIError)
    (hm : method ∈ supportedMethods)
    (ht : env.transport { client := c.httpClient, Method := method, URL := path, Body := body }
      = .ok resp)
    (htO : envO.transport { client := s.client.httpClient, Method := "POST",
                            URL := "/api/orders", Body := some req } = .ok resp)
    (hs : 400 ≤ resp.StatusCode)
    (hdec : env.unmarshalAPIError resp.Body {} = (e, none))
    (hdecO : envO.unmarshalAPIError resp.Body {} = (e, none)) :
    (c.makeRequest env method path body result).err =
        some (.apiError { Code := e.Code, Message := e.Message, StatusCode := resp.StatusCode,
                          RequestID := e.RequestID, Details := e.Details }) ∧
      (s.Create envO req).2 =
        some (.apiError { Code := e.Code, Message := e.Message, StatusCode := resp.StatusCode,
                          RequestID := e.RequestID, Details := e.Details }) ∧
      (e.Code = "VALIDATION_ERROR" →
        ∃ a : APIError, (s.Create envO req).2 = some (.apiError a) ∧
          a.Code = ErrCodeValidation) := by
  have hC : (s.Create envO req).2 =
      some (.apiError { Code := e.Code, Message := e.Message, StatusCode := resp.StatusCode,
                        RequestID := e.RequestID, Details := e.Details }) := by
    have hp : supportedMethod "POST" = true := by decide
    simp [OrdersService.Create, Client.post, Client.makeRequest, Client.dispatch, Dispatch.run,
        hp, htO,
      isError_true_of_ge_400 hs, hdecO]
  refine ⟨?_, hC, fun hv => ⟨_, hC, ?_⟩⟩
  · simp [Client.makeRequest, Client.dispatch, Dispatch.run,
      supportedMethod_of_mem hm, ht, isError_true_of_ge_400 hs, hdec]
  · simpa [ErrCodeValidation] using hv

/-- C6 at a concrete input: creating an order answered by a 400 response whose
body carries code VALIDATION_ERROR and declares status 422. -/
theorem makeRequest_error_body_fields_witness :
    ((NewClient "test-key" []).makeRequest (stringEnv (.ok respValidation))
        "POST" "/api/orders" (some "order") (some "")).err =
      some (.apiError { Code := "VALIDATION_ERROR", Message := "recipientStreet1 is required",
                        StatusCode := 400, RequestID := "req-42",
                        Details := some (.arr [.str "recipientStreet1"]) }) ∧
    (OrdersService.Create (structEnv (.ok respValidation)) ⟨NewClient "test-key" []⟩
        { OrderNumber := "T-1" }).2 =
      some (.apiError { Code := "VALIDATION_ERROR", Message := "recipientStreet1 is required",
                        StatusCode := 400, RequestID := "req-42",
                        Details := some (.arr [.str "recipientStreet1"]) }) ∧
    ("VALIDATION_ERROR" = "VALIDATION_ERROR" →
      ∃ a : APIError,
        (OrdersService.Create (structEnv (.ok respValidation)) ⟨NewClient "test-key" []⟩
          { OrderNumber := "T-1" }).2 = some (.apiError a) ∧
        a.Code = ErrCodeValidation) :=
  makeRequest_error_body_fields (stringEnv (.ok respValidation)) (NewClient "test-key" [])
    "POST" "/api/orders" (some "order") (some "") (structEnv (.ok respValidation))
    ⟨NewClient "test-key" []⟩ { OrderNumber := "T-1" } respValidation
    { Code := "VALIDATION_ERROR", Message := "recipientStreet1 is required", StatusCode := 422,
      RequestID := "req-42", Details := some (.arr [.str "recipientStreet1"]) }
    (by decide) rfl rfl (by decide) rfl rfl

/-- C7, as stated, fails: a 402 response whose error body carries the code
PAYMENT_REQUIRED makes `makeRequest` return an `*APIError` with that code, which
is none of the nine constants and not API_ERROR. -/
theorem makeRequest_code_outside_taxonomy :
    ((NewClient "test-key" []).makeRequest (stringEnv (.ok respPaymentRequired))
        "POST" "/api/labels" (some "label") (some "")).err =
      some (.apiError { Code := "PAYMENT_REQUIRED", Message := "card declined",
                        StatusCode := 402, RequestID := "", Details := none }) ∧
    "PAYMENT_REQUIRED" ∉ "API_ERROR" :: errCodes :=
  ⟨rfl, by decide⟩

/-- C7, amended: the code of an `*APIError` returned by `makeRequest` is
NETWORK_ERROR, SERVER_ERROR or API_ERROR, or else the exchange completed with
status 400 or above, its body decoded as an error body, and the code is the one
that body carries. -/
theorem makeRequest_error_code_origin {β τ : Type} (env : Env β τ) (c : Client)
    (method path : String) (body : Option β) (result : Option τ) (e : APIError)
    (h : (c.makeRequest env method path body result).err = some (.apiError e)) :
    e.Code = ErrCodeNetworkError ∨ e.Code = ErrCodeServerError ∨ e.Code = "API_ERROR" ∨
      ∃ (resp : Response) (a : APIError),
        env.transport { client := c.httpClient, Method := method, URL := path, Body := body }
          = .ok resp ∧
        400 ≤ resp.StatusCode ∧ env.unmarshalAPIError resp.Body {} = (a, none) ∧
        e.Code = a.Code := by
  have hc := makeRequest_cases env c method path body result
  dsimp only at hc
  rcases hc with ⟨_, ho⟩ | ⟨_, _, _, ho⟩ | ⟨_, _, _, _, _, _, _, ho⟩ |
    ⟨resp, a, _, ht, he, hdec, ho⟩ | ⟨_, _, _, _, _, ho⟩ |
    ⟨_, dst, data, _, _, _, _, _, _, ho⟩ | ⟨_, _, _, _, _, _, ho⟩ <;>
    rw [ho] at h
  · simp at h
  · simp only [Option.some.injEq, GoError.apiError.injEq] at h
    subst h
    exact Or.inl rfl
  · simp only [Option.some.injEq, GoError.apiError.injEq] at h
    subst h
    exact Or.inr (Or.inl rfl)
  · simp only [Option.some.injEq, GoError.apiError.injEq] at h
    subst h
    refine Or.inr (Or.inr (Or.inr ⟨resp, a, ht, ?_, hdec, rfl⟩))
    simp only [Response.IsError, decide_eq_true_eq] at he
    omega
  · simp only [Option.some.injEq, GoError.apiError.injEq] at h
    subst h
    exact Or.inr (Or.inr (Or.inl rfl))
  · cases hu : (env.unmarshal data dst).2 <;> simp [hu] at h
  · simp at h

/-- C7, amended, at a concrete input: the 402 response with code
PAYMENT_REQUIRED falls under the last alternative. -/
theorem makeRequest_error_code_origin_witness :
    "PAYMENT_REQUIRED" = ErrCodeNetworkError ∨ "PAYMENT_REQUIRED" = ErrCodeServerError ∨
      "PAYMENT_REQUIRED" = "API_ERROR" ∨
      ∃ (resp : Response) (a : APIError),
        (stringEnv (.ok respPaymentRequired)).transport
          { client := (NewClient "test-key" []).httpClient, Method := "POST",
            URL := "/api/labels", Body := some "label" } = .ok resp ∧
        400 ≤ resp.StatusCode ∧
        (stringEnv (.ok respPaymentRequired)).unmarshalAPIError resp.Body {} = (a, none) ∧
        "PAYMENT_REQUIRED" = a.Code :=
  makeRequest_error_code_origin (stringEnv (.ok respPaymentRequired)) (NewClient "test-key" [])
    "POST" "/api/labels" (some "label") (some "")
    { Code := "PAYMENT_REQUIRED", Message := "card declined", StatusCode := 402,
      RequestID := "", Details := none } rfl

/-- C8, as stated, fails: an unsupported method makes `makeRequest` return the
plain error built by `fmt.Errorf`, and a payload that does not decode makes it
return the error of `json.Unmarshal`; neither is an `*APIError`. -/
theorem makeRequest_error_not_apiError :
    ((NewClient "test-key" []).makeRequest (stringEnv (.ok respShipped))
        "HEAD" "/api/status" none (some "")).err =
      some (.errorf "unsupported HTTP method: HEAD") ∧
    (GoError.errorf "unsupported HTTP method: HEAD").isAPIError = false ∧
    ((NewClient "test-key" []).makeRequest (stringEnv (.ok respNumber))
        "GET" "/api/status" none (some "")).err =
      some (.jsonError "json: cannot unmarshal number into Go value of type string") ∧
    (GoError.jsonError "json: cannot unmarshal number into Go value of type string").isAPIError
      = false :=
  ⟨rfl, rfl, rfl, rfl⟩

/-- C8, amended: a non-nil error returned by `makeRequest` is an `*APIError`,
except on two paths: for a method outside GET, POST, PUT, DELETE, PATCH it is
the plain error "unsupported HTTP method: " followed by the method, and when the
payload of a successful envelope does not decode into the destination it is the
error returned by `json.Unmarshal`. -/
theorem makeRequest_error_kinds {β τ : Type} (env : Env β τ) (c : Client)
    (method path : String) (body : Option β) (result : Option τ) (g : GoError)
    (h : (c.makeRequest env method path body result).err = some g) :
    g.isAPIError = true ∨
      (method ∉ supportedMethods ∧ g = .errorf ("unsupported HTTP method: " ++ method)) ∨
      ∃ (resp : Response) (dst : τ) (data : RawMessage) (msg : String),
        env.transport { client := c.httpClient, Method := method, URL := path, Body := body }
          = .ok resp ∧
        resp.IsError = false ∧ resp.Result.Success = true ∧ result = some dst ∧
        resp.Result.Data = some data ∧ (env.unmarshal data dst).2 = some msg ∧
        g = .jsonError msg := by
  have hc := makeRequest_cases env c method path body result
  dsimp only at hc
  rcases hc with ⟨hm, ho⟩ | ⟨_, _, _, ho⟩ | ⟨_, _, _, _, _, _, _, ho⟩ |
    ⟨_, _, _, _, _, _, ho⟩ | ⟨_, _, _, _, _, ho⟩ |
    ⟨resp, dst, data, _, ht, he, hsucc, hr, hd, ho⟩ | ⟨_, _, _, _, _, _, ho⟩ <;>
    rw [ho] at h
  · simp only [Option.some.injEq] at h
    exact Or.inr (Or.inl ⟨not_mem_of_supportedMethod_false hm, h.symm⟩)
  · simp only [Option.some.injEq] at h
    subst h
    exact Or.inl rfl
  · simp only [Option.some.injEq] at h
    subst h
    exact Or.inl rfl
  · simp only [Option.some.injEq] at h
    subst h
    exact Or.inl rfl
  · simp only [Option.some.injEq] at h
    subst h
    exact Or.inl rfl
  · cases hu : (env.unmarshal data dst).2 with
    | none => simp [hu] at h
    | some msg =>
      simp only [hu, Option.map_some', Option.some.injEq] at h
      exact Or.inr (Or.inr ⟨resp, dst, data, msg, ht, he, hsucc, hr, hd, hu, h.symm⟩)
  · simp at h

/-- C8, amended, at a concrete input: the refused connection yields an
`*APIError`. -/
theorem makeRequest_error_kinds_witness :
    (GoError.apiError { Code := "NETWORK_ERROR", Message := "dial tcp: connection refused" }
        ).isAPIError = true ∨
      ("GET" ∉ supportedMethods ∧
        GoError.apiError { Code := "NETWORK_ERROR", Message := "dial tcp: connection refused" } =
          .errorf ("unsupported HTTP method: " ++ "GET")) ∨
      ∃ (resp : Response) (dst : String) (data : RawMessage) (msg : String),
        (stringEnv (.error "dial tcp: connection refused")).transport
          { client := (NewClient "test-key" []).httpClient, Method := "GET",
            URL := "/api/status", Body := none } = .ok resp ∧
        resp.IsError = false ∧ resp.Result.Success = true ∧ some "" = some dst ∧
        resp.Result.Data = some data ∧
        ((stringEnv (.error "dial tcp: connection refused")).unmarshal data dst).2 = some msg ∧
        GoError.apiError { Code := "NETWORK_ERROR", Message := "dial tcp: connection refused" } =
          .jsonError msg :=
  makeRequest_error_kinds (stringEnv (.error "dial tcp: connection refused"))
    (NewClient "test-key" []) "GET" "/api/status" none (some "")
    (.apiError { Code := "NETWORK_ERROR", Message := "dial tcp: connection refused" }) rfl

/-- C9: a completed 2xx exchange, an envelope with success=true, a requested
destination and a present payload that does not decode into it: `makeRequest`
returns a non-nil error, namely the error of `json.Unmarshal`, which is not an
`*APIError` and so differs from the transport error and from every HTTP-status
error. -/
theorem makeRequest_decode_failure {β τ : Type} (env : Env β τ) (c : Client)
    (method path : String) (body : Option β) (dst : τ) (resp : Response) (data : RawMessage)
    (msg : String)
    (hm : method ∈ supportedMethods)
    (ht : env.transport { client := c.httpClient, Method := method, URL := path, Body := body }
      = .ok resp)
    (hs : 200 ≤ resp.StatusCode ∧ resp.StatusCode ≤ 299)
    (hok : resp.Result.Success = true)
    (hd : resp.Result.Data = some data)
    (hdec : (env.unmarshal data dst).2 = some msg) :
    (c.makeRequest env method path body (some dst)).err ≠ none ∧
      (c.makeRequest env method path body (some dst)).err = some (.jsonError msg) ∧
      ∀ e : APIError, (c.makeRequest env method path body (some dst)).err ≠ some (.apiError e) := by
  have herr : (c.makeRequest env method path body (some dst)).err = some (.jsonError msg) := by
    simp [Client.makeRequest, Client.dispatch, Dispatch.run,
        supportedMethod_of_mem hm, ht, isError_false_of_2xx hs, hok, hd,
      hdec]
  rw [herr]
  simp

/-- C9 at a concrete input: a 200 response whose payload is the number 42, for
a Go string destination. -/
theorem makeRequest_decode_failure_witness :
    ((NewClient "test-key" []).makeRequest (stringEnv (.ok respNumber))
        "GET" "/api/status" none (some "")).err ≠ none ∧
    ((NewClient "test-key" []).makeRequest (stringEnv (.ok respNumber))
        "GET" "/api/status" none (some "")).err =
      some (.jsonError "json: cannot unmarshal number into Go value of type string") ∧
    ∀ e : APIError,
      ((NewClient "test-key" []).makeRequest (stringEnv (.ok respNumber))
        "GET" "/api/status" none (some "")).err ≠ some (.apiError e) :=
  makeRequest_decode_failure (stringEnv (.ok respNumber)) (NewClient "test-key" [])
    "GET" "/api/status" none "" respNumber "42"
    "json: cannot unmarshal number into Go value of type string"
    (by decide) rfl (by decide) rfl rfl rfl

/-- C10, as stated, fails: `Tracking.Track` on a not-found response returns the
`*APIError` together with a non-nil pointer to a zero-valued `TrackingInfo`. -/
theorem track_not_found_returns_value_and_error :
    (TrackingService.Track (structEnv (.ok respNotFound) : Env String TrackingInfo)
        ⟨NewClient "test-key" []⟩ "1Z999AA10123456784").2 =
      some (.apiError { Code := "NOT_FOUND", Message := "tracking number not found",
                        StatusCode := 404, RequestID := "req-9", Details := none }) ∧
    (TrackingService.Track (structEnv (.ok respNotFound) : Env String TrackingInfo)
        ⟨NewClient "test-key" []⟩ "1Z999AA10123456784").1 = some {} ∧
    (TrackingService.Track (structEnv (.ok respNotFound) : Env String TrackingInfo)
        ⟨NewClient "test-key" []⟩ "1Z999AA10123456784").1 ≠ none :=
  ⟨rfl, rfl, fun h => Option.noConfusion h⟩

/-- The shape `var x T; err := call(&x); return &x, err` of the facades that
return a pointer, for any call of `makeRequest` on the zero value. -/
theorem pointerWithError_of_makeRequest {β τ : Type} (env : Env β τ) (c : Client)
    (method path : String) (body : Option β) (zero : τ) :
    PointerWithError zero
      (some ((c.makeRequest env method path body (some zero)).result.getD zero),
       (c.makeRequest env method path body (some zero)).err) := by
  refine ⟨fun h => Option.noConfusion h, fun e h => ?_⟩
  have hr := makeRequest_result_of_apiError env c method path body (some zero) e h
  simp only [hr, Option.getD_some]

/-- The shape `var xs []T; err := call(&xs); return xs, err` of the facades that
return a slice, for any call of `makeRequest` on the nil slice. -/
theorem nilSliceWithError_of_makeRequest {β α : Type} (env : Env β (Slice α)) (c : Client)
    (method path : String) (body : Option β) :
    NilSliceWithError
      ((c.makeRequest env method path body (some none)).result.getD none,
       (c.makeRequest env method path body (some none)).err) := by
  intro e h
  have hr := makeRequest_result_of_apiError env c method path body (some none) e h
  simp only [hr, Option.getD_some]

/-- C10, amended: every facade that returns a pointer and an error returns a
non-nil pointer on every path, and whenever the error is an `*APIError` (a
transport failure, an HTTP error status or an envelope with success=false) the
value pointed to is the zero value, nothing having been decoded into it; every
facade that returns a slice and an error returns the nil slice whenever the
error is an `*APIError`. The facades are those of tracking.go, orders.go,
addresses.go, shipping.go, users.go, admin.go, carriers.go and webhooks.go, in
this order. -/
theorem facade_value_with_error :
    ((∀ {β : Type} (env : Env β TrackingInfo) (s : TrackingService) (trackingNumber : String),
        PointerWithError {} (s.Track env trackingNumber)) ∧
      (∀ {β : Type} (env : Env β TrackingInfo) (s : TrackingService)
          (trackingNumber carrier : String),
        PointerWithError {} (s.TrackWithCarrier env trackingNumber carrier)) ∧
      (∀ (env : Env (StringMap (Slice String)) (Slice TrackingInfo)) (s : TrackingService)
          (trackingNumbers : Slice String),
        NilSliceWithError (s.BatchTrack env trackingNumbers))) ∧
    ((∀ (env : Env CreateOrderRequest Order) (s : OrdersService) (req : CreateOrderRequest),
        PointerWithError {} (s.Create env req)) ∧
      (∀ {β : Type} (env : Env β Order) (s : OrdersService) (orderID : String),
        PointerWithError {} (s.Get env orderID)) ∧
      (∀ (env : Env UpdateOrderRequest Order) (s : OrdersService) (orderID : String)
          (req : UpdateOrderRequest),
        PointerWithError {} (s.Update env orderID req)) ∧
      (∀ {β : Type} (env : Env β OrderListResponse) (s : OrdersService)
          (opts : Option ListOrdersOptions),
        PointerWithError {} (s.List env opts)) ∧
      (∀ (env : Env (StringMap String) Order) (s : OrdersService)
          (orderID trackingNumber carrier : String),
        PointerWithError {} (s.Ship env orderID trackingNumber carrier)) ∧
      (∀ (env : Env (StringMap String) Order) (s : OrdersService) (orderID reason : String),
        PointerWithError {} (s.Cancel env orderID reason)) ∧
      (∀ (env : Env (StringMap (Slice (Option CreateOrderRequest))) BulkCreateResponse)
          (s : OrdersService) (orders : Slice (Option CreateOrderRequest)),
        PointerWithError {} (s.BulkCreate env orders))) ∧
    ((∀ (env : Env Address Address) (s : AddressesService) (address : Address),
        PointerWithError {} (s.Create env address)) ∧
      (∀ {β : Type} (env : Env β Address) (s : AddressesService) (addressID : String),
        PointerWithError {} (s.Get env addressID)) ∧
      (∀ (env : Env Address Address) (s : AddressesService) (addressID : String)
          (address : Address),
        PointerWithError {} (s.Update env addressID address)) ∧
      (∀ {β : Type} (env : Env β (Slice Address)) (s : AddressesService),
        NilSliceWithError (s.List env)) ∧
      (∀ (env : Env ValidateAddressRequest ValidateAddressResponse) (s : AddressesService)
          (req : ValidateAddressRequest),
        PointerWithError {} (s.Validate env req)) ∧
      (∀ {β : Type} (env : Env β (Slice Address)) (s : AddressesService)
          (query country : String),
        NilSliceWithError (s.Search env query country))) ∧
    ((∀ (env : Env RateRequest (Slice ShippingRate)) (s : ShippingService) (req : RateRequest),
        NilSliceWithError (s.GetRates env req)) ∧
      (∀ (env : Env PurchaseLabelRequest ShippingLabel) (s : ShippingService)
          (req : PurchaseLabelRequest),
        PointerWithError {} (s.PurchaseLabel env req)) ∧
      (∀ {β : Type} (env : Env β ShippingLabel) (s : ShippingService) (labelID : String),
        PointerWithError {} (s.GetLabel env labelID)) ∧
      (∀ {β : Type} (env : Env β ShippingLabel) (s : ShippingService) (labelID : String),
        PointerWithError {} (s.CancelLabel env labelID))) ∧
    ((∀ {β : Type} (env : Env β User) (s : UsersService),
        PointerWithError {} (s.GetProfile env)) ∧
      (∀ (env : Env User User) (s : UsersService) (updates : User),
        PointerWithError {} (s.UpdateProfile env updates))) ∧
    (∀ {β : Type} (env : Env β Stats) (s : AdminService),
      PointerWithError {} (s.GetStats env)) ∧
    (∀ {β : Type} (env : Env β (Slice Carrier)) (s : CarriersService),
      NilSliceWithError (s.List env)) ∧
    ((∀ (env : Env CreateWebhookRequest Webhook) (s : WebhooksService)
          (req : CreateWebhookRequest),
        PointerWithError {} (s.Create env req)) ∧
      (∀ {β : Type} (env : Env β (Slice Webhook)) (s : WebhooksService),
        NilSliceWithError (s.List env))) := by
  refine ⟨⟨?_, ?_, ?_⟩, ⟨?_, ?_, ?_, ?_, ?_, ?_, ?_⟩, ⟨?_, ?_, ?_, ?_, ?_, ?_⟩,
    ⟨?_, ?_, ?_, ?_⟩, ⟨?_, ?_⟩, ?_, ?_, ⟨?_, ?_⟩⟩
  all_goals intros
  all_goals first
    | exact pointerWithError_of_makeRequest _ _ _ _ _ _
    | exact nilSliceWithError_of_makeRequest _ _ _ _ _

/-- C10, amended, at a concrete input: the not-found response for
`Tracking.Track`. -/
theorem facade_value_with_error_witness :
    (TrackingService.Track (structEnv (.ok respNotFound) : Env String TrackingInfo)
        ⟨NewClient "test-key" []⟩ "1Z999AA10123456784").1 = some {} :=
  (facade_value_with_error.1.1 (structEnv (.ok respNotFound) : Env String TrackingInfo)
    ⟨NewClient "test-key" []⟩ "1Z999AA10123456784").2
    { Code := "NOT_FOUND", Message := "tracking number not found", StatusCode := 404,
      RequestID := "req-9", Details := none } rfl

/-- When the `switch` of `makeRequest` accepts the method, the exchanges issued
are the single request built from the arguments. -/
theorem makeRequest_exchanges_of_supported {β τ : Type} (env : Env β τ) (c : Client)
    (method path : String) (body : Option β) (result : Option τ)
    (hm : supportedMethod method = true) :
    (c.makeRequest env method path body result).exchanges =
      [{ client := c.httpClient, Method := method, URL := path, Body := body }] := by
  have hc := makeRequest_cases env c method path body result
  dsimp only at hc
  rcases hc with ⟨hf, _⟩ | ⟨_, _, _, ho⟩ | ⟨_, _, _, _, _, _, _, ho⟩ |
    ⟨_, _, _, _, _, _, ho⟩ | ⟨_, _, _, _, _, ho⟩ |
    ⟨_, _, _, _, _, _, _, _, _, ho⟩ | ⟨_, _, _, _, _, _, ho⟩
  · rw [hm] at hf
    exact Bool.noConfusion hf
  all_goals rw [ho]

/-- C11: a completed 2xx exchange with an envelope with success=true and no
destination requested: `makeRequest` returns a nil error whatever payload the
envelope carries; so do `Client.delete` and `Orders.Delete` when that response
answers their DELETE request. -/
theorem makeRequest_no_destination {β τ : Type} (env : Env β τ) (c : Client)
    (method path : String) (body : Option β) (resp : Response)
    (hm : method ∈ supportedMethods)
    (ht : env.transport { client := c.httpClient, Method := method, URL := path, Body := body }
      = .ok resp)
    (hs : 200 ≤ resp.StatusCode ∧ resp.StatusCode ≤ 299)
    (hok : resp.Result.Success = true) :
    (c.makeRequest env method path body none).err = none ∧
      (env.transport { client := c.httpClient, Method := "DELETE", URL := path, Body := none }
          = .ok resp → (c.delete env path).err = none) ∧
      ∀ (s : OrdersService) (orderID : String),
        env.transport { client := s.client.httpClient, Method := "DELETE",
                        URL := "/api/orders/" ++ orderID, Body := none } = .ok resp →
        s.Delete env orderID = none := by
  have hdel : supportedMethod "DELETE" = true := by decide
  refine ⟨?_, fun htd => ?_, fun s orderID htd => ?_⟩
  · simp [Client.makeRequest, Client.dispatch, Dispatch.run,
      supportedMethod_of_mem hm, ht, isError_false_of_2xx hs, hok]
  · simp [Client.delete, Client.makeRequest, Client.dispatch, Dispatch.run,
      hdel, htd, isError_false_of_2xx hs, hok]
  · simp [OrdersService.Delete, OrdersService.DeleteCall, Client.delete, Client.makeRequest,
      Client.dispatch, Dispatch.run, hdel, htd, isError_false_of_2xx hs, hok]

/-- C11 at a concrete input: a DELETE answered by a 200 response whose envelope
carries a payload. -/
theorem makeRequest_no_destination_witness :
    ((NewClient "test-key" []).makeRequest (stringEnv (.ok respShipped))
        "DELETE" "/api/orders/42" none none).err = none ∧
    (OrdersService.Delete (stringEnv (.ok respShipped)) ⟨NewClient "test-key" []⟩ "42") = none :=
  ⟨(makeRequest_no_destination (stringEnv (.ok respShipped)) (NewClient "test-key" [])
      "DELETE" "/api/orders/42" none respShipped (by decide) rfl (by decide) rfl).1,
   (makeRequest_no_destination (stringEnv (.ok respShipped)) (NewClient "test-key" [])
      "DELETE" "/api/orders/42" none respShipped (by decide) rfl (by decide) rfl).2.2
      ⟨NewClient "test-key" []⟩ "42" rfl⟩

/-- The program of `makeRequest` for an accepted method: one exchange for the
request built from the arguments, after which it returns whatever the transport
answered. -/
theorem dispatch_of_supported {β τ : Type}
    (unmarshalAPIError : String → APIError → APIError × Option String)
    (unmarshal : RawMessage → τ → τ × Option String)
    (c : Client) (method path : String) (body : Option β) (result : Option τ)
    (hm : supportedMethod method = true) :
    ∃ next : Except String Response → Dispatch β (Option GoError × Option τ),
      c.dispatch unmarshalAPIError unmarshal method path body result =
        .exchange { client := c.httpClient, Method := method, URL := path, Body := body }
          next ∧
      ∀ answer, ∃ a, next answer = .done a := by
  simp only [Client.dispatch, hm, if_true]
  refine ⟨_, rfl, fun answer => ?_⟩
  cases answer with
  | error err => exact ⟨_, rfl⟩
  | ok resp =>
    dsimp only
    split
    · split <;> exact ⟨_, rfl⟩
    · split
      · exact ⟨_, rfl⟩
      · split <;> exact ⟨_, rfl⟩

/-- C14: for a method among GET, POST, PUT, PATCH, DELETE the program of
`makeRequest` is one exchange, for the given verb, path and body, followed by a
return whatever the transport answers; run against any transport with any
decoders, the transport is applied exactly once, to that request. -/
theorem makeRequest_one_exchange {β τ : Type} (env : Env β τ) (c : Client)
    (method path : String) (body : Option β) (result : Option τ)
    (hm : method ∈ supportedMethods) :
    (∃ next : Except String Response → Dispatch β (Option GoError × Option τ),
        c.dispatch env.unmarshalAPIError env.unmarshal method path body result =
          .exchange { client := c.httpClient, Method := method, URL := path, Body := body }
            next ∧
        ∀ answer, ∃ a, next answer = .done a) ∧
      ((c.dispatch env.unmarshalAPIError env.unmarshal method path body result).run
          env.transport).2 =
        [{ client := c.httpClient, Method := method, URL := path, Body := body }] ∧
      (c.makeRequest env method path body result).exchanges =
        [{ client := c.httpClient, Method := method, URL := path, Body := body }] := by
  have hp := dispatch_of_supported env.unmarshalAPIError env.unmarshal c method path body
    result (supportedMethod_of_mem hm)
  have hrun : ((c.dispatch env.unmarshalAPIError env.unmarshal method path body result).run
      env.transport).2 =
      [{ client := c.httpClient, Method := method, URL := path, Body := body }] := by
    obtain ⟨next, hprog, hnext⟩ := hp
    obtain ⟨a, ha⟩ := hnext
      (env.transport { client := c.httpClient, Method := method, URL := path, Body := body })
    rw [hprog]
    simp only [Dispatch.run, ha]
  exact ⟨hp, hrun, hrun⟩

/-- C14 at a concrete input: a PATCH whose transport fails. -/
theorem makeRequest_one_exchange_witness :
    ((NewClient "test-key" []).makeRequest (stringEnv (.error "timeout"))
        "PATCH" "/api/orders/42" (some "patch") (some "")).exchanges =
      [{ client := (NewClient "test-key" []).httpClient, Method := "PATCH",
         URL := "/api/orders/42", Body := some "patch" }] :=
  (makeRequest_one_exchange _ _ "PATCH" "/api/orders/42" (some "patch") (some "")
    (by decide)).2.2

/-- C15: `Orders.List` issues a GET to the path "/api/orders" with no body for
every `opts`, nil or not, so `List(opts)` makes the same request and returns the
same result as `List(nil)`. -/
theorem ordersList_ignores_options {β : Type} (env : Env β OrderListResponse)
    (s : OrdersService) (opts : Option ListOrdersOptions) :
    (s.ListCall env opts).exchanges =
        [{ client := s.client.httpClient, Method := "GET", URL := "/api/orders",
           Body := none }] ∧
      s.ListCall env opts = s.ListCall env none ∧
      s.List env opts = s.List env none := by
  have hcall : s.ListCall env opts = s.ListCall env none := by
    cases opts <;> rfl
  refine ⟨?_, hcall, ?_⟩
  · rw [hcall]
    exact makeRequest_exchanges_of_supported env s.client "GET" "/api/orders" none _ (by decide)
  · simp only [OrdersService.List, hcall]

/-- C16: a completed 2xx exchange with an envelope with success=true and no
data field, for a requested destination: `makeRequest` returns a nil error and
leaves the destination as it was, and `Orders.Get` answered so returns a pointer
to a zero-valued `Order` and a nil error. -/
theorem makeRequest_absent_payload {β τ : Type} (env : Env β τ) (c : Client)
    (method path : String) (body : Option β) (dst : τ) (envG : Env β Order)
    (s : OrdersService) (orderID : String) (resp : Response)
    (hm : method ∈ supportedMethods)
    (ht : env.transport { client := c.httpClient, Method := method, URL := path, Body := body }
      = .ok resp)
    (htG : envG.transport { client := s.client.httpClient, Method := "GET",
                            URL := "/api/orders/" ++ orderID, Body := none } = .ok resp)
    (hs : 200 ≤ resp.StatusCode ∧ resp.StatusCode ≤ 299)
    (hok : resp.Result.Success = true)
    (hd : resp.Result.Data = none) :
    (c.makeRequest env method path body (some dst)).err = none ∧
      (c.makeRequest env method path body (some dst)).result = some dst ∧
      s.Get envG orderID = (some {}, none) := by
  have hget : supportedMethod "GET" = true := by decide
  refine ⟨?_, ?_, ?_⟩
  · simp [Client.makeRequest, Client.dispatch, Dispatch.run,
      supportedMethod_of_mem hm, ht, isError_false_of_2xx hs, hok, hd]
  · simp [Client.makeRequest, Client.dispatch, Dispatch.run,
      supportedMethod_of_mem hm, ht, isError_false_of_2xx hs, hok, hd]
  · simp [OrdersService.Get, Client.get, Client.makeRequest, Client.dispatch, Dispatch.run,
      hget, htG,
      isError_false_of_2xx hs, hok, hd]

/-- C16 at a concrete input: a 200 response with success=true and no data. -/
theorem makeRequest_absent_payload_witness :
    ((NewClient "test-key" []).makeRequest (stringEnv (.ok respNoData))
        "GET" "/api/status" none (some "before")).err = none ∧
    ((NewClient "test-key" []).makeRequest (stringEnv (.ok respNoData))
        "GET" "/api/status" none (some "before")).result = some "before" ∧
    OrdersService.Get (structEnv (.ok respNoData) : Env String Order)
        ⟨NewClient "test-key" []⟩ "42" = (some {}, none) :=
  makeRequest_absent_payload (stringEnv (.ok respNoData)) (NewClient "test-key" [])
    "GET" "/api/status" none "before" (structEnv (.ok respNoData)) ⟨NewClient "test-key" []⟩
    "42" respNoData (by decide) rfl rfl (by decide) rfl rfl

/-- C17: `Addresses.Search` issues a GET with no body whose path is
"/api/address-search?q=" followed by the query as given and, exactly when the
country is not empty, by "&country=" and the country as given. -/
theorem addressSearch_path {β : Type} (env : Env β (Slice Address)) (s : AddressesService)
    (query country : String) :
    (∃ suffix : String,
        (s.SearchCall env query country).exchanges =
          [{ client := s.client.httpClient, Method := "GET",
             URL := "/api/address-search?q=" ++ query ++ suffix, Body := none }] ∧
        (country = "" ↔ suffix = "") ∧
        (country ≠ "" ↔ suffix = "&country=" ++ country)) ∧
      (country = "" →
        (s.SearchCall env query country).exchanges =
          [{ client := s.client.httpClient, Method := "GET",
             URL := "/api/address-search?q=" ++ query, Body := none }]) ∧
      (country ≠ "" →
        (s.SearchCall env query country).exchanges =
          [{ client := s.client.httpClient, Method := "GET",
             URL := "/api/address-search?q=" ++ query ++ "&country=" ++ country,
             Body := none }]) := by
  have hget : supportedMethod "GET" = true := by decide
  have hne : ∀ t : String, "&country=" ++ t ≠ "" := by
    intro t h
    have hl := congrArg String.length h
    simp only [String.length_append] at hl
    have h9 : "&country=".length = 9 := by decide
    have h0 : "".length = 0 := by decide
    omega
  have hempty : (s.SearchCall env query "").exchanges =
      [{ client := s.client.httpClient, Method := "GET",
         URL := "/api/address-search?q=" ++ query, Body := none }] := by
    simp only [AddressesService.SearchCall, Client.get]
    exact makeRequest_exchanges_of_supported env s.client "GET" _ none _ hget
  have hfull : country ≠ "" → (s.SearchCall env query country).exchanges =
      [{ client := s.client.httpClient, Method := "GET",
         URL := "/api/address-search?q=" ++ query ++ "&country=" ++ country,
         Body := none }] := by
    intro hc
    simp only [AddressesService.SearchCall, Client.get, bne_iff_ne, ne_eq, hc,
      not_false_eq_true, if_true, String.append_assoc]
    exact makeRequest_exchanges_of_supported env s.client "GET" _ none _ hget
  refine ⟨?_, fun hc => by rw [hc]; exact hempty, hfull⟩
  by_cases hc : country = ""
  · subst hc
    refine ⟨"", ?_, by simp, ?_⟩
    · simpa using hempty
    · constructor
      · intro h; exact absurd rfl h
      · intro h; exact absurd h.symm (hne "")
  · refine ⟨"&country=" ++ country, ?_, ?_, by simp [hc]⟩
    · simpa [String.append_assoc] using hfull hc
    · constructor
      · intro h; exact absurd h hc
      · intro h; exact absurd h (hne country)

/-- C17 at a concrete input: a query with a space and an ampersand, inserted as
given, with a country. -/
theorem addressSearch_path_witness :
    (AddressesService.SearchCall (structEnv (.error "timeout") : Env String (Slice Address))
        ⟨NewClient "test-key" []⟩ "1 Main St&x=1" "US").exchanges =
      [{ client := (NewClient "test-key" []).httpClient, Method := "GET",
         URL := "/api/address-search?q=1 Main St&x=1&country=US", Body := none }] :=
  (addressSearch_path (structEnv (.error "timeout")) ⟨NewClient "test-key" []⟩
    "1 Main St&x=1" "US").2.2 (by decide)

/-- None of the provided options touches the headers of the transport. -/
theorem optionSpec_header (o : OptionSpec) (c : Client) :
    (o.toOption c).httpClient.Header = c.httpClient.Header := by
  cases o <;> rfl

/-- Applying a list of the provided options leaves the headers as they were. -/
theorem options_header (opts : List OptionSpec) (c : Client) :
    ((opts.map OptionSpec.toOption).foldl (fun c opt => opt c) c).httpClient.Header =
      c.httpClient.Header := by
  induction opts generalizing c with
  | nil => rfl
  | cons o rest ih =>
    simp only [List.map_cons, List.foldl_cons]
    rw [ih, optionSpec_header]

/-- The headers of the transport of a client built by `NewClient` with any of
the provided options: the three `SetHeader` calls, in order. -/
theorem newClient_header (apiKey : String) (opts : List OptionSpec) :
    (NewClient apiKey (opts.map OptionSpec.toOption)).httpClient.Header =
      HTTPHeader.Set
        (HTTPHeader.Set (HTTPHeader.Set [] "User-Agent" ("atoship-go-sdk/" ++ Version))
          "X-API-Key" apiKey)
        "Content-Type" "application/json" := by
  simp only [NewClient]
  split_ifs <;> simp only [RestyClient.SetHeader, RestyClient.SetDebug] <;>
    rw [options_header] <;> rfl

/-- Every exchange `makeRequest` issues is made on the transport of the client. -/
theorem makeRequest_exchange_client {β τ : Type} (env : Env β τ) (c : Client)
    (method path : String) (body : Option β) (result : Option τ) (r : Request β)
    (hr : r ∈ (c.makeRequest env method path body result).exchanges) :
    r.client = c.httpClient := by
  have hc := makeRequest_cases env c method path body result
  dsimp only at hc
  rcases hc with ⟨_, ho⟩ | ⟨_, _, _, ho⟩ | ⟨_, _, _, _, _, _, _, ho⟩ |
    ⟨_, _, _, _, _, _, ho⟩ | ⟨_, _, _, _, _, ho⟩ |
    ⟨_, _, _, _, _, _, _, _, _, ho⟩ | ⟨_, _, _, _, _, _, ho⟩ <;>
    rw [ho] at hr <;> simp at hr <;> rw [hr]

/-- C13: for every API key and every list of the provided options, the transport
of the client built by `NewClient` has the headers X-API-Key (the API key),
Content-Type (application/json) and User-Agent (atoship-go-sdk/1.0.0), and every
exchange `makeRequest` issues on that client is made with them. -/
theorem newClient_standard_headers (apiKey : String) (opts : List OptionSpec) :
    ((NewClient apiKey (opts.map OptionSpec.toOption)).httpClient.Header.Get "X-API-Key"
        = some apiKey ∧
      (NewClient apiKey (opts.map OptionSpec.toOption)).httpClient.Header.Get "Content-Type"
        = some "application/json" ∧
      (NewClient apiKey (opts.map OptionSpec.toOption)).httpClient.Header.Get "User-Agent"
        = some "atoship-go-sdk/1.0.0") ∧
    ∀ {β τ : Type} (env : Env β τ) (method path : String) (body : Option β)
      (result : Option τ) (r : Request β),
      r ∈ ((NewClient apiKey (opts.map OptionSpec.toOption)).makeRequest env method path body
            result).exchanges →
      r.client.Header.Get "X-API-Key" = some apiKey ∧
        r.client.Header.Get "Content-Type" = some "application/json" ∧
        r.client.Header.Get "User-Agent" = some "atoship-go-sdk/1.0.0" := by
  have hk : CanonicalMIMEHeaderKey "X-API-Key" = "X-Api-Key" := by decide
  have hct : CanonicalMIMEHeaderKey "Content-Type" = "Content-Type" := by decide
  have hua : CanonicalMIMEHeaderKey "User-Agent" = "User-Agent" := by decide
  have hv : "atoship-go-sdk/" ++ Version = "atoship-go-sdk/1.0.0" := by decide
  have h3 : (NewClient apiKey (opts.map OptionSpec.toOption)).httpClient.Header.Get "X-API-Key"
        = some apiKey ∧
      (NewClient apiKey (opts.map OptionSpec.toOption)).httpClient.Header.Get "Content-Type"
        = some "application/json" ∧
      (NewClient apiKey (opts.map OptionSpec.toOption)).httpClient.Header.Get "User-Agent"
        = some "atoship-go-sdk/1.0.0" := by
    rw [newClient_header]
    simp [HTTPHeader.Set, HTTPHeader.Get, hk, hct, hua, hv, List.filter, List.find?]
  refine ⟨h3, fun env method path body result r hr => ?_⟩
  rw [makeRequest_exchange_client env _ method path body result r hr]
  exact h3

/-- C13 at a concrete input: a client built with a base URL and debug mode, and
the GET it issues. -/
theorem newClient_standard_headers_witness :
    HTTPHeader.Get
        ({ client := (NewClient "test-key"
              ([OptionSpec.withBaseURL "https://sandbox.atoship.com", .withDebug true].map
                OptionSpec.toOption)).httpClient,
           Method := "GET", URL := "/api/status", Body := none } : Request String).client.Header
        "X-API-Key" = some "test-key" :=
  ((newClient_standard_headers "test-key"
      [.withBaseURL "https://sandbox.atoship.com", .withDebug true]).2
    (stringEnv (.ok respShipped)) "GET" "/api/status" none (some "")
    { client := (NewClient "test-key"
        ([OptionSpec.withBaseURL "https://sandbox.atoship.com", .withDebug true].map
          OptionSpec.toOption)).httpClient,
      Method := "GET", URL := "/api/status", Body := none }
    (by
      rw [makeRequest_exchanges_of_supported _ _ "GET" "/api/status" none (some "") (by decide)]
      exact List.mem_singleton.mpr rfl)).1

/-- An option other than `WithBaseURL` leaves both base URLs as they were. -/
theorem optionSpec_baseURL (o : OptionSpec) (c : Client) (h : o.isWithBaseURL = false) :
    (o.toOption c).baseURL = c.baseURL ∧
      (o.toOption c).httpClient.BaseURL = c.httpClient.BaseURL := by
  cases o
  · exact Bool.noConfusion h
  all_goals exact ⟨rfl, rfl⟩

/-- A list of options without `WithBaseURL` leaves both base URLs as they were. -/
theorem options_baseURL (opts : List OptionSpec) (c : Client)
    (h : ∀ o ∈ opts, o.isWithBaseURL = false) :
    ((opts.map OptionSpec.toOption).foldl (fun c opt => opt c) c).baseURL = c.baseURL ∧
      ((opts.map OptionSpec.toOption).foldl (fun c opt => opt c) c).httpClient.BaseURL =
        c.httpClient.BaseURL := by
  induction opts generalizing c with
  | nil => exact ⟨rfl, rfl⟩
  | cons o rest ih =>
    simp only [List.map_cons, List.foldl_cons]
    have ho := optionSpec_baseURL o c (h o (List.mem_cons_self o rest))
    have hr := ih (o.toOption c) (fun p hp => h p (List.mem_cons_of_mem o hp))
    exact ⟨hr.1.trans ho.1, hr.2.trans ho.2⟩

/-- C12, where the code departs from the claim: for a client built by `NewClient`
with no `WithBaseURL` option the field `baseURL` is `DefaultBaseURL`, but the
base URL of the transport is empty, and so is the base URL of every exchange
`makeRequest` issues on that client. -/
theorem newClient_default_baseURL_not_on_transport (apiKey : String) (opts : List OptionSpec)
    (h : ∀ o ∈ opts, o.isWithBaseURL = false) :
    (NewClient apiKey (opts.map OptionSpec.toOption)).baseURL = DefaultBaseURL ∧
      (NewClient apiKey (opts.map OptionSpec.toOption)).httpClient.BaseURL = "" ∧
      (NewClient apiKey (opts.map OptionSpec.toOption)).httpClient.BaseURL ≠
        (NewClient apiKey (opts.map OptionSpec.toOption)).baseURL ∧
      ∀ {β τ : Type} (env : Env β τ) (method path : String) (body : Option β)
        (result : Option τ) (r : Request β),
        r ∈ ((NewClient apiKey (opts.map OptionSpec.toOption)).makeRequest env method path
              body result).exchanges →
        r.client.BaseURL = "" := by
  have hb := options_baseURL opts
    { apiKey := apiKey, baseURL := DefaultBaseURL,
      httpClient := (RestyClient.SetTimeout {} DefaultTimeout).SetHeader "User-Agent"
        ("atoship-go-sdk/" ++ Version) } h
  have h1 : (NewClient apiKey (opts.map OptionSpec.toOption)).baseURL = DefaultBaseURL := by
    simp only [NewClient]
    split_ifs <;> exact hb.1
  have h2 : (NewClient apiKey (opts.map OptionSpec.toOption)).httpClient.BaseURL = "" := by
    simp only [NewClient]
    split_ifs <;> exact hb.2
  refine ⟨h1, h2, ?_, fun env method path body result r hr => ?_⟩
  · rw [h1, h2]
    decide
  · rw [makeRequest_exchange_client env _ method path body result r hr]
    exact h2

/-- C12 at the failing input: `NewClient` with no options. -/
theorem newClient_default_baseURL_not_on_transport_witness :
    (NewClient "test-key" []).baseURL = "https://api.atoship.com" ∧
      (NewClient "test-key" []).httpClient.BaseURL = "" :=
  ⟨(newClient_default_baseURL_not_on_transport "test-key" []
      (fun _ hm => absurd hm (List.not_mem_nil _))).1,
   (newClient_default_baseURL_not_on_transport "test-key" []
      (fun _ hm => absurd hm (List.not_mem_nil _))).2.1⟩

/-- The override path of C12: after `WithBaseURL(u)` as the only option the field
`baseURL` is `u` and the base URL of the transport is `u` without its trailing
slashes. -/
theorem newClient_withBaseURL (apiKey url : String) :
    (NewClient apiKey [WithBaseURL url]).baseURL = url ∧
      (NewClient apiKey [WithBaseURL url]).httpClient.BaseURL = trimRightSlash url := by
  simp only [NewClient, List.foldl_cons, List.foldl_nil, WithBaseURL]
  exact ⟨rfl, rfl⟩

end Atoship
